import Mathlib

/-!
# OppositeRenderer: host-side controller of the progressive photon mapper

A shallow embedding of `RenderEngine/renderer/PMOptixRenderer.cpp`.

* The renderer object is a record (`PMOptixRenderer`); every member function is a
  state transformer `Exec α` that returns either a value or the exception it throws,
  together with the state it leaves behind (a C++ exception does not roll back the
  assignments made before it).
* The OptiX runtime is external.  Every call into it that does work on the device is
  recorded as an `Event` in `Context.trace`, and a `Runtime` oracle decides, from the
  calls issued so far and the call being issued, whether it raises `optix::Exception`.
  Assignments to context variables are taken not to fault.
* `float` arithmetic is idealised as exact rational arithmetic; the only operation that
  can leave the rationals is the division in the radius update, whose result is a
  `FloatVal`.  An integer that is stored in a `float` variable (`totalEmitted`,
  `iterationNumber`, `emittedPhotonsPerIterationFloat`) is rounded to the 24-bit
  significand (`toFloat`); inside the radius formula the iteration number is kept exact.
* `unsigned long long` and `unsigned int` arithmetic is taken modulo `2^64`, `2^32`.
* Logging, timing and profiling ranges are left out.
* The collaborators whose headers are not among the sources (`IScene`, `ComputeDevice`,
  `RenderServerRenderRequestDetails`, `Camera`, `Light`, `config.h`) are records holding
  what the renderer reads from them.
-/

namespace OppositeRenderer

/-! ## Data model -/

/-- Entry points (`OptixEntryPoint::*`) launched by the renderer. -/
inductive OptixEntryPoint
  | PPM_RAYTRACE_PASS
  | PPM_PHOTON_PASS
  | PPM_INDIRECT_RADIANCE_ESTIMATION_PASS
  | PPM_DIRECT_RADIANCE_ESTIMATION_PASS
  | PPM_OUTPUT_PASS
  deriving DecidableEq, Repr

/-- The device buffers owned by the renderer (the `m_*` buffer members, and the
per-mesh hit counters that only live in the context). -/
inductive BufferId
  | raytracePassOutputBuffer
  | photons
  | photonsHashCells
  | hashmapOffsetTable
  | indirectRadianceBuffer
  | directRadianceBuffer
  | outputBuffer
  | randomStatesBuffer
  | lightBuffer
  | hitsPerMeshBuffer
  deriving DecidableEq, Repr

/-- Extent of a buffer: `[n]` for one dimension, `[w, h]` for two. -/
abbrev Extent := List Nat

/-- Calls into the OptiX runtime, in the order the renderer issues them. -/
inductive Event
  | getDeviceAttribute (index : Nat)
  | setDevices (ordinal : Int)
  | createGroup
  | createBuffer (b : BufferId) (size : Extent)
  | createProgramFromPTXFile (file : String) (program : String)
  | setSize (b : BufferId) (size : Extent)
  | map (b : BufferId)
  | initializeRandomStates
  | getSceneRootGroup
  | validate
  | compile
  | launch (entry : OptixEntryPoint) (width : Nat) (height : Nat)
  | createUniformGridPhotonMap
  deriving DecidableEq, Repr

/-- What a member function throws: a `std::exception` built by the renderer with the
given message, or an `optix::Exception` of the runtime that nobody caught. -/
inductive Error
  | std (what : String)
  | optix (what : String)
  deriving DecidableEq, Repr

/-- A `float` result that may not be finite. -/
inductive FloatVal
  | finite (q : ℚ)
  | nonfinite
  deriving DecidableEq

/-- Float division: dividing by zero leaves the finite numbers. -/
def FloatVal.div (a b : ℚ) : FloatVal :=
  if b = 0 then FloatVal.nonfinite else FloatVal.finite (a / b)

/-- A light of the scene (layout not needed here). -/
structure Light where
  id : Nat
  deriving DecidableEq, Repr

/-- Handle of a geometry group. -/
structure Group where
  id : Nat
  deriving DecidableEq, Repr

/-- Axis-aligned bounding box of a scene (kept abstract). -/
structure AABB where
  id : Nat
  deriving DecidableEq, Repr

/-- Bounding sphere obtained from a bounding box by `AABB::getBoundingSphere`. -/
structure Sphere where
  ofBox : AABB
  deriving DecidableEq, Repr

/-- Camera parameters (kept abstract). -/
structure Camera where
  id : Nat
  deriving DecidableEq, Repr

/-- The compile-time constants of the renderer.  `MAX_PHOTON_COUNT` is
`MAX_PHOTONS_DEPOSITS_PER_EMITTED` of `config.h`. -/
structure Constants where
  PHOTON_LAUNCH_WIDTH : Nat
  PHOTON_LAUNCH_HEIGHT : Nat
  MAX_PHOTON_COUNT : Nat
  deriving DecidableEq, Repr

/-- `PHOTON_GRID_MAX_SIZE = 100*100*100`. -/
def PHOTON_GRID_MAX_SIZE : Nat := 100 * 100 * 100

/-- `EMITTED_PHOTONS_PER_ITERATION = PHOTON_LAUNCH_WIDTH*PHOTON_LAUNCH_HEIGHT`
(`unsigned int`). -/
def Constants.EMITTED_PHOTONS_PER_ITERATION (k : Constants) : Nat :=
  (k.PHOTON_LAUNCH_WIDTH * k.PHOTON_LAUNCH_HEIGHT) % 2 ^ 32

/-- `NUM_PHOTONS = EMITTED_PHOTONS_PER_ITERATION*MAX_PHOTON_COUNT` (`unsigned int`). -/
def Constants.NUM_PHOTONS (k : Constants) : Nat :=
  (k.EMITTED_PHOTONS_PER_ITERATION * k.MAX_PHOTON_COUNT) % 2 ^ 32

/-- The constants as the source fixes them: `PHOTON_LAUNCH_WIDTH = 512 * 2`,
`PHOTON_LAUNCH_HEIGHT = 512 * 2`; the deposit bound comes from `config.h`, which is not
among the sources (the sample objects below take 4). -/
def sourceConstants (maxPhotonDepositsPerEmitted : Nat) : Constants :=
  { PHOTON_LAUNCH_WIDTH := 512 * 2
    PHOTON_LAUNCH_HEIGHT := 512 * 2
    MAX_PHOTON_COUNT := maxPhotonDepositsPerEmitted }

/-- The OptiX context: the named variables the renderer assigns (`m_context["..."]`),
the contents of the buffers it fills from the host, and the calls issued so far.
A variable that was never assigned is `none`. -/
structure Context where
  trace : List Event
  devices : Option Int
  maxPhotonDepositsPerEmitted : Option Nat
  ppmAlpha : Option ℚ
  totalEmitted : Option ℚ
  iterationNumber : Option ℚ
  localIterationNumber : Option Nat
  ppmRadius : Option ℚ
  ppmRadiusSquared : Option ℚ
  ppmRadiusSquaredNew : Option FloatVal
  emittedPhotonsPerIteration : Option Nat
  emittedPhotonsPerIterationFloat : Option ℚ
  photonLaunchWidth : Option Nat
  participatingMedium : Option Nat
  photonsSize : Option Nat
  sceneRootObject : Option Group
  sceneBoundingSphere : Option Sphere
  sceneNMeshes : Option Nat
  hitsPerMeshBuffer : Option (List Nat)
  lights : List Light
  camera : Option Camera
  randomStatesGeneration : Nat

/-- The renderer object: the members of `PMOptixRenderer`. -/
structure PMOptixRenderer where
  m_initialized : Bool
  m_width : Nat
  m_height : Nat
  m_optixDeviceOrdinal : Int
  m_raytracePassOutputBuffer : Option Extent
  m_photons : Option Extent
  m_photonsHashCells : Option Extent
  m_hashmapOffsetTable : Option Extent
  m_indirectRadianceBuffer : Option Extent
  m_directRadianceBuffer : Option Extent
  m_outputBuffer : Option Extent
  m_randomStatesBuffer : Option Extent
  m_lightBuffer : Option Extent
  m_sceneRootGroup : Option Group
  m_sceneAABB : Option AABB
  m_context : Context

/-- The OptiX runtime as seen from the host.  `fault issued call` is the message of
the `optix::Exception` raised when `call` is issued after the calls `issued`, or `none`
when the call returns normally.  `deviceCount` and `cudaDeviceOrdinal` are what device
enumeration reports.  Reading a context variable that was never assigned (it is declared
on the spot, without a type) is taken to raise `optix::Exception`, as the OptiX getters
do on a type mismatch; `unassigned name` is the message of that exception. -/
structure Runtime where
  fault : List Event → Event → Option String
  deviceCount : Nat
  cudaDeviceOrdinal : Nat → Int
  unassigned : String → String

/-- The scene collaborator (`IScene`): its lights, its number of meshes (an `int` that
counts, so a natural number here), the group `getSceneRootGroup` returns when it does not
fault, and its bounding box. -/
structure IScene where
  sceneLights : List Light
  numMeshes : Nat
  sceneRootGroup : Group
  sceneAABB : AABB

/-- The part of `RenderServerRenderRequestDetails` the renderer reads (width and height
are `unsigned int`; no arithmetic is done on them here). -/
structure RenderServerRenderRequestDetails where
  width : Nat
  height : Nat
  camera : Camera
  ppmAlpha : ℚ

/-- The compute device requested by the caller (`ComputeDevice::getDeviceId`). -/
structure ComputeDevice where
  deviceId : Int

/-! ## Execution monad -/

/-- A member function: from the object before the call to what it returns or throws,
and the object after the call. -/
def Exec (α : Type) : Type := PMOptixRenderer → Except Error α × PMOptixRenderer

/-- Sequencing: an exception skips the rest. -/
def Exec.bind {α β : Type} (x : Exec α) (f : α → Exec β) : Exec β := fun s =>
  match x s with
  | (Except.ok a, s1) => f a s1
  | (Except.error e, s1) => (Except.error e, s1)

instance : Monad Exec where
  pure a := fun s => (Except.ok a, s)
  bind := Exec.bind

/-- The statement `throw e`. -/
def Exec.throw {α : Type} (e : Error) : Exec α := fun s => (Except.error e, s)

/-- Read the object. -/
def Exec.get : Exec PMOptixRenderer := fun s => (Except.ok s, s)

/-- Assign to members of the object. -/
def Exec.modify (f : PMOptixRenderer → PMOptixRenderer) : Exec Unit :=
  fun s => (Except.ok (), f s)

/-- Assign to variables of the context. -/
def Exec.modifyContext (f : Context → Context) : Exec Unit :=
  Exec.modify fun s => { s with m_context := f s.m_context }

/-- The block `try { body } catch(const optix::Exception & e) { throw std::exception(wrap e) }`:
only runtime exceptions are caught. -/
def Exec.tryCatchOptix (body : Exec Unit) (wrap : String → String) : Exec Unit := fun s =>
  match body s with
  | (Except.error (Error.optix what), s1) => (Except.error (Error.std (wrap what)), s1)
  | r => r

/-- The object after the call `ev` has been recorded. -/
def PMOptixRenderer.record (s : PMOptixRenderer) (ev : Event) : PMOptixRenderer :=
  { s with m_context := { s.m_context with trace := s.m_context.trace ++ [ev] } }

/-- Issue a call to the runtime: it is recorded, and raises the runtime's exception
when the runtime faults on it. -/
def Exec.issue (rt : Runtime) (ev : Event) : Exec Unit := fun s =>
  match rt.fault s.m_context.trace ev with
  | some what => (Except.error (Error.optix what), s.record ev)
  | none => (Except.ok (), s.record ev)

/-- Read a context variable (`m_context["name"]->get...()`): the runtime raises when
the variable was never assigned. -/
def Exec.getVariable {α : Type} (rt : Runtime) (name : String) (read : Context → Option α) :
    Exec α := fun s =>
  match read s.m_context with
  | some v => (Except.ok v, s)
  | none => (Except.error (Error.optix (rt.unassigned name)), s)

/-- Conversion of an `unsigned int` to `int`. -/
def toInt32 (n : Nat) : Int :=
  if n % 2 ^ 32 < 2 ^ 31 then ((n % 2 ^ 32 : Nat) : Int) else ((n % 2 ^ 32 : Nat) : Int) - 2 ^ 32

/-- The number of low bits of `n` that do not fit the 24-bit significand of a `float`:
the least `e` with `n / 2^e < 2^24` (`fuel` bounds the search; 64 is enough for an
`unsigned long long`). -/
def floatShift : Nat → Nat → Nat
  | 0, _ => 0
  | fuel + 1, n => if n < 2 ^ 24 then 0 else floatShift fuel (n / 2) + 1

/-- Conversion of an unsigned integer below 2^64 to `float`: the nearest number with a
24-bit significand, a tie going to the even significand (the default rounding mode).  The
value is an integer again. -/
def toFloat (n : Nat) : Nat :=
  let e := floatShift 64 n
  let significand := n / 2 ^ e
  let rest := n % 2 ^ e
  if 2 * rest < 2 ^ e then significand * 2 ^ e
  else if 2 ^ e < 2 * rest then (significand + 1) * 2 ^ e
  else if significand % 2 = 0 then significand * 2 ^ e
  else (significand + 1) * 2 ^ e

/-- The effect of `memset(bufferHost, 0, sizeof(unsigned int) * n)` on the counters. -/
def memsetZero (n : Nat) (counters : List Nat) : List Nat :=
  List.replicate (min n counters.length) 0 ++ counters.drop n

/-! ## Member functions -/

/-- The object right after the constructor: not initialized, 10 x 10, no buffer yet. -/
def PMOptixRenderer.new : PMOptixRenderer :=
  { m_initialized := false
    m_width := 10
    m_height := 10
    m_optixDeviceOrdinal := 0
    m_raytracePassOutputBuffer := none
    m_photons := none
    m_photonsHashCells := none
    m_hashmapOffsetTable := none
    m_indirectRadianceBuffer := none
    m_directRadianceBuffer := none
    m_outputBuffer := none
    m_randomStatesBuffer := none
    m_lightBuffer := none
    m_sceneRootGroup := none
    m_sceneAABB := none
    m_context :=
      { trace := []
        devices := none
        maxPhotonDepositsPerEmitted := none
        ppmAlpha := none
        totalEmitted := none
        iterationNumber := none
        localIterationNumber := none
        ppmRadius := none
        ppmRadiusSquared := none
        ppmRadiusSquaredNew := none
        emittedPhotonsPerIteration := none
        emittedPhotonsPerIterationFloat := none
        photonLaunchWidth := none
        participatingMedium := none
        photonsSize := none
        sceneRootObject := none
        sceneBoundingSphere := none
        sceneNMeshes := none
        hitsPerMeshBuffer := none
        lights := []
        camera := none
        randomStatesGeneration := 0 } }

/-- The loop of `initDevice` over the runtime's device indices: the last index whose
CUDA ordinal is the requested one wins. -/
def initDeviceLoop (rt : Runtime) (device : ComputeDevice) : List Nat → Int → Exec Int
  | [], deviceOptixOrdinal => pure deviceOptixOrdinal
  | index :: rest, deviceOptixOrdinal => do
    Exec.issue rt (Event.getDeviceAttribute index)
    if rt.cudaDeviceOrdinal index = device.deviceId then
      initDeviceLoop rt device rest (toInt32 index)
    else
      initDeviceLoop rt device rest deviceOptixOrdinal

/-- The member `PMOptixRenderer::initDevice`. -/
def PMOptixRenderer.initDevice (rt : Runtime) (device : ComputeDevice) : Exec Unit := do
  let deviceOptixOrdinal ← initDeviceLoop rt device (List.range rt.deviceCount) (-1)
  Exec.modify fun s => { s with m_optixDeviceOrdinal := deviceOptixOrdinal }
  if deviceOptixOrdinal ≥ 0 then
    Exec.issue rt (Event.setDevices deviceOptixOrdinal)
    Exec.modifyContext fun c => { c with devices := some deviceOptixOrdinal }
  else
    Exec.throw (Error.std
      "Did not find OptiX device Number for given device. OptiX may not support this device.")

/-- The member `PMOptixRenderer::initialize`.  The assignment of the logger and the calls
that only configure the context (ray type count, entry point count, stack size, the
programs of the entry points) are left out. -/
def PMOptixRenderer.initialize (k : Constants) (rt : Runtime) (device : ComputeDevice) :
    Exec Unit := do
  let s ← Exec.get
  if s.m_initialized then
    Exec.throw (Error.std "ERROR: Multiple PMOptixRenderer::initialize!\n")
  PMOptixRenderer.initDevice rt device
  Exec.modifyContext fun c =>
    { c with
      maxPhotonDepositsPerEmitted := some k.MAX_PHOTON_COUNT
      ppmAlpha := some 0
      totalEmitted := some 0
      iterationNumber := some 0
      localIterationNumber := some 0
      ppmRadius := some 0
      ppmRadiusSquared := some 0
      emittedPhotonsPerIteration := some k.EMITTED_PHOTONS_PER_ITERATION
      emittedPhotonsPerIterationFloat := some (toFloat k.EMITTED_PHOTONS_PER_ITERATION : ℚ)
      photonLaunchWidth := some k.PHOTON_LAUNCH_WIDTH
      participatingMedium := some 0 }
  -- An empty scene root node
  Exec.issue rt Event.createGroup
  Exec.modifyContext fun c => { c with sceneRootObject := some { id := 0 } }
  -- Ray trace pass output buffer
  Exec.issue rt (Event.createBuffer BufferId.raytracePassOutputBuffer [s.m_width, s.m_height])
  Exec.modify fun t => { t with m_raytracePassOutputBuffer := some [s.m_width, s.m_height] }
  -- Ray generation programs
  Exec.issue rt (Event.createProgramFromPTXFile "PMRayGenerator.cu.ptx" "generateRay")
  Exec.issue rt (Event.createProgramFromPTXFile "PMRayGenerator.cu.ptx" "exception")
  Exec.issue rt (Event.createProgramFromPTXFile "PMRayGenerator.cu.ptx" "miss")
  -- Photon tracing programs
  Exec.issue rt (Event.createProgramFromPTXFile "PMPhotonGenerator.cu.ptx" "generator")
  Exec.issue rt (Event.createProgramFromPTXFile "PMPhotonGenerator.cu.ptx" "exception")
  Exec.issue rt (Event.createProgramFromPTXFile "PMPhotonGenerator.cu.ptx" "miss")
  Exec.issue rt (Event.createBuffer BufferId.photons [k.NUM_PHOTONS])
  Exec.modify fun t => { t with m_photons := some [k.NUM_PHOTONS] }
  Exec.modifyContext fun c => { c with photonsSize := some k.NUM_PHOTONS }
  Exec.issue rt (Event.createBuffer BufferId.photonsHashCells [k.NUM_PHOTONS])
  Exec.modify fun t => { t with m_photonsHashCells := some [k.NUM_PHOTONS] }
  Exec.issue rt (Event.createBuffer BufferId.hashmapOffsetTable [PHOTON_GRID_MAX_SIZE + 1])
  Exec.modify fun t => { t with m_hashmapOffsetTable := some [PHOTON_GRID_MAX_SIZE + 1] }
  -- Indirect radiance estimation buffer and program
  Exec.issue rt (Event.createBuffer BufferId.indirectRadianceBuffer [s.m_width, s.m_height])
  Exec.modify fun t => { t with m_indirectRadianceBuffer := some [s.m_width, s.m_height] }
  Exec.issue rt (Event.createProgramFromPTXFile "IndirectRadianceEstimation.cu.ptx" "kernel")
  -- Direct radiance estimation buffer and program
  Exec.issue rt (Event.createBuffer BufferId.directRadianceBuffer [s.m_width, s.m_height])
  Exec.modify fun t => { t with m_directRadianceBuffer := some [s.m_width, s.m_height] }
  Exec.issue rt (Event.createProgramFromPTXFile "DirectRadianceEstimation.cu.ptx" "kernel")
  -- Output buffer and program
  Exec.issue rt (Event.createBuffer BufferId.outputBuffer [s.m_width, s.m_height])
  Exec.modify fun t => { t with m_outputBuffer := some [s.m_width, s.m_height] }
  Exec.issue rt (Event.createProgramFromPTXFile "Output.cu.ptx" "kernel")
  -- Random state buffer
  Exec.issue rt
    (Event.createBuffer BufferId.randomStatesBuffer [k.PHOTON_LAUNCH_WIDTH, k.PHOTON_LAUNCH_HEIGHT])
  Exec.modify fun t =>
    { t with m_randomStatesBuffer := some [k.PHOTON_LAUNCH_WIDTH, k.PHOTON_LAUNCH_HEIGHT] }
  -- Light sources buffer
  Exec.issue rt (Event.createBuffer BufferId.lightBuffer [1])
  Exec.modify fun t => { t with m_lightBuffer := some [1] }
  Exec.modify fun t => { t with m_initialized := true }

/-- The member `PMOptixRenderer::compile`: validate, then compile; a runtime exception
is thrown again unchanged. -/
def PMOptixRenderer.compile (rt : Runtime) : Exec Unit := do
  Exec.issue rt Event.validate
  Exec.issue rt Event.compile

/-- The member `PMOptixRenderer::initScene`. -/
def PMOptixRenderer.initScene (rt : Runtime) (scene : IScene) : Exec Unit := do
  let s ← Exec.get
  if !s.m_initialized then
    Exec.throw (Error.std "Cannot initialize scene before PMOptixRenderer.")
  let lights := scene.sceneLights
  if lights.length = 0 then
    Exec.throw (Error.std "No lights exists in this scene.")
  let sceneNMeshes := scene.numMeshes
  Exec.issue rt (Event.createBuffer BufferId.hitsPerMeshBuffer [sceneNMeshes])
  Exec.issue rt (Event.map BufferId.hitsPerMeshBuffer)
  Exec.modifyContext fun c =>
    { c with
      hitsPerMeshBuffer := some (List.replicate sceneNMeshes 0)
      sceneNMeshes := some sceneNMeshes }
  Exec.tryCatchOptix
    (do
      Exec.issue rt Event.getSceneRootGroup
      Exec.modify fun t => { t with m_sceneRootGroup := some scene.sceneRootGroup }
      Exec.modifyContext fun c => { c with sceneRootObject := some scene.sceneRootGroup }
      Exec.modify fun t => { t with m_sceneAABB := some scene.sceneAABB }
      Exec.modifyContext fun c =>
        { c with sceneBoundingSphere := some { ofBox := scene.sceneAABB } }
      -- Add the lights from the scene to the light buffer
      Exec.issue rt (Event.setSize BufferId.lightBuffer [lights.length])
      Exec.modify fun t => { t with m_lightBuffer := some [lights.length] }
      Exec.issue rt (Event.map BufferId.lightBuffer)
      Exec.modifyContext fun c => { c with lights := scene.sceneLights }
      PMOptixRenderer.compile rt)
    (fun what => "An OptiX error occurred when initializing scene: " ++ what)

/-- Modelled from the spec: `PMOptixRenderer::initializeRandomStates` is declared but its
body is not among the sources.  The spec (4.2) says that a resize "reinitializes all random
states": the model issues one call, whose fault the runtime decides, and counts the
initializations in `randomStatesGeneration`. -/
def PMOptixRenderer.initializeRandomStates (rt : Runtime) : Exec Unit := do
  Exec.issue rt Event.initializeRandomStates
  Exec.modifyContext fun c => { c with randomStatesGeneration := c.randomStatesGeneration + 1 }

/-- Modelled from the spec: `PMOptixRenderer::createUniformGridPhotonMap` is declared but
its body is not among the sources.  The spec (4.4, 4.5 step 5b) makes it the photon-map
build that runs between the photon pass and the empty launch: the model issues one call,
whose fault the runtime decides. -/
def PMOptixRenderer.createUniformGridPhotonMap (rt : Runtime) : Exec Unit :=
  Exec.issue rt Event.createUniformGridPhotonMap

/-- The member `PMOptixRenderer::resizeBuffers`.  The random-state buffer gets the
extent `max(PHOTON_LAUNCH_WIDTH, 1280) x max(PHOTON_LAUNCH_HEIGHT, 768)` and the random
states are initialized again. -/
def PMOptixRenderer.resizeBuffers (k : Constants) (rt : Runtime) (width height : Nat) :
    Exec Unit := do
  Exec.issue rt (Event.setSize BufferId.outputBuffer [width, height])
  Exec.modify fun t => { t with m_outputBuffer := some [width, height] }
  Exec.issue rt (Event.setSize BufferId.raytracePassOutputBuffer [width, height])
  Exec.modify fun t => { t with m_raytracePassOutputBuffer := some [width, height] }
  Exec.issue rt (Event.setSize BufferId.outputBuffer [width, height])
  Exec.modify fun t => { t with m_outputBuffer := some [width, height] }
  Exec.issue rt (Event.setSize BufferId.directRadianceBuffer [width, height])
  Exec.modify fun t => { t with m_directRadianceBuffer := some [width, height] }
  Exec.issue rt (Event.setSize BufferId.indirectRadianceBuffer [width, height])
  Exec.modify fun t => { t with m_indirectRadianceBuffer := some [width, height] }
  Exec.issue rt (Event.setSize BufferId.randomStatesBuffer
    [max k.PHOTON_LAUNCH_WIDTH 1280, max k.PHOTON_LAUNCH_HEIGHT 768])
  Exec.modify fun t =>
    { t with
      m_randomStatesBuffer :=
        some [max k.PHOTON_LAUNCH_WIDTH 1280, max k.PHOTON_LAUNCH_HEIGHT 768] }
  PMOptixRenderer.initializeRandomStates rt
  Exec.modify fun t => { t with m_width := width }
  Exec.modify fun t => { t with m_height := height }

/-- The value given to `ppmRadiusSquaredNew`:
`ppmRadiusSquared*(iterationNumber+ppmAlpha)/float(iterationNumber+1)`, the increment
being taken in `unsigned long long`. -/
def ppmRadiusSquaredNew (iterationNumber : Nat) (ppmAlpha ppmRadiusSquared : ℚ) : FloatVal :=
  FloatVal.div (ppmRadiusSquared * ((iterationNumber : ℚ) + ppmAlpha))
    (((iterationNumber + 1) % 2 ^ 64 : Nat) : ℚ)

/-- The value given to `totalEmitted`: `(iterationNumber+1)*EMITTED_PHOTONS_PER_ITERATION`,
computed in `unsigned long long` and then converted to `float`. -/
def totalEmitted (k : Constants) (iterationNumber : Nat) : Nat :=
  toFloat (((iterationNumber + 1) % 2 ^ 64 * k.EMITTED_PHOTONS_PER_ITERATION) % 2 ^ 64)

/-- The member `PMOptixRenderer::renderNextIteration`.  Logging and timing are left out;
`m_logger` is assigned by `initialize`, and the statements below are what the function does
besides them. -/
def PMOptixRenderer.renderNextIteration (k : Constants) (rt : Runtime)
    (iterationNumber localIterationNumber : Nat) (PPMRadius : ℚ) (_createOutput : Bool)
    (details : RenderServerRenderRequestDetails) : Exec Unit := do
  let s ← Exec.get
  if !s.m_initialized then
    Exec.throw (Error.std "Traced before PMOptixRenderer was initialized.")
  -- reset the per-mesh hit counters
  let sceneNMeshes ← Exec.getVariable rt "sceneNMeshes" fun c => c.sceneNMeshes
  let bufferHost ← Exec.getVariable rt "hitsPerMeshBuffer" fun c => c.hitsPerMeshBuffer
  Exec.issue rt (Event.map BufferId.hitsPerMeshBuffer)
  Exec.modifyContext fun c =>
    { c with hitsPerMeshBuffer := some (memsetZero sceneNMeshes bufferHost) }
  Exec.tryCatchOptix
    (do
      -- If the width and height of the current render request has changed, resize buffers
      let t ← Exec.get
      if details.width ≠ t.m_width ∨ details.height ≠ t.m_height then
        PMOptixRenderer.resizeBuffers k rt details.width details.height
      Exec.modifyContext fun c =>
        { c with
          camera := some details.camera
          iterationNumber := some (toFloat iterationNumber : ℚ)
          localIterationNumber := some (localIterationNumber % 2 ^ 32) }
      -- Update PPM radius for next photon tracing pass
      let ppmAlpha := details.ppmAlpha
      let ppmRadiusSquared := PPMRadius * PPMRadius
      Exec.modifyContext fun c =>
        { c with
          ppmAlpha := some ppmAlpha
          ppmRadius := some PPMRadius
          ppmRadiusSquared := some ppmRadiusSquared
          ppmRadiusSquaredNew :=
            some (ppmRadiusSquaredNew iterationNumber ppmAlpha ppmRadiusSquared) }
      -- Photon tracing
      Exec.issue rt
        (Event.launch OptixEntryPoint.PPM_PHOTON_PASS k.PHOTON_LAUNCH_WIDTH k.PHOTON_LAUNCH_HEIGHT)
      Exec.modifyContext fun c =>
        { c with totalEmitted := some (totalEmitted k iterationNumber : ℚ) }
      -- Create photon map
      PMOptixRenderer.createUniformGridPhotonMap rt
      -- Transfer the photon map to the GPU (an empty launch)
      Exec.issue rt (Event.launch OptixEntryPoint.PPM_INDIRECT_RADIANCE_ESTIMATION_PASS 0 0)
      -- Trace viewing rays
      let u ← Exec.get
      Exec.issue rt (Event.launch OptixEntryPoint.PPM_RAYTRACE_PASS u.m_width u.m_height)
      -- PPM indirect estimation (using the photon map)
      Exec.issue rt
        (Event.launch OptixEntryPoint.PPM_INDIRECT_RADIANCE_ESTIMATION_PASS u.m_width u.m_height)
      -- Direct radiance estimation
      Exec.issue rt
        (Event.launch OptixEntryPoint.PPM_DIRECT_RADIANCE_ESTIMATION_PASS u.m_width u.m_height)
      -- Combine indirect and direct buffers in the output buffer
      Exec.issue rt (Event.launch OptixEntryPoint.PPM_OUTPUT_PASS u.m_width u.m_height)
      -- report the per-mesh hit counters
      let _ ← Exec.getVariable rt "sceneNMeshes" fun c => c.sceneNMeshes
      let _ ← Exec.getVariable rt "hitsPerMeshBuffer" fun c => c.hitsPerMeshBuffer
      Exec.issue rt (Event.map BufferId.hitsPerMeshBuffer))
    (fun what => "An OptiX error occurred: " ++ what)

/-- The member `PMOptixRenderer::getWidth`. -/
def PMOptixRenderer.getWidth (s : PMOptixRenderer) : Nat := s.m_width

/-- The member `PMOptixRenderer::getHeight`. -/
def PMOptixRenderer.getHeight (s : PMOptixRenderer) : Nat := s.m_height

/-- The exception `initialize` throws when it is called again (`AlreadyInitialized`). -/
def AlreadyInitialized : Error := Error.std "ERROR: Multiple PMOptixRenderer::initialize!\n"

/-- The exception `initScene` throws before `initialize` (`NotInitialized`). -/
def NotInitialized : Error := Error.std "Cannot initialize scene before PMOptixRenderer."

/-- The exception `initScene` throws for a scene without lights (`EmptyScene`). -/
def EmptyScene : Error := Error.std "No lights exists in this scene."

/-- The exception `renderNextIteration` throws on its precondition check (`NotReady`). -/
def NotReady : Error := Error.std "Traced before PMOptixRenderer was initialized."

/-- The exception `renderNextIteration` throws for a runtime fault with message `what`
(`RenderFault`). -/
def RenderFault (what : String) : Error := Error.std ("An OptiX error occurred: " ++ what)

/-- The condition under which `renderNextIteration` calls `resizeBuffers`. -/
def PMOptixRenderer.mustResize (s : PMOptixRenderer) (details : RenderServerRenderRequestDetails) :
    Prop :=
  details.width ≠ s.m_width ∨ details.height ≠ s.m_height

instance (s : PMOptixRenderer) (details : RenderServerRenderRequestDetails) :
    Decidable (s.mustResize details) :=
  inferInstanceAs (Decidable (details.width ≠ s.m_width ∨ details.height ≠ s.m_height))

/-- The calls `resizeBuffers(width, height)` issues, in order. -/
def resizeCalls (k : Constants) (width height : Nat) : List Event :=
  [Event.setSize BufferId.outputBuffer [width, height],
   Event.setSize BufferId.raytracePassOutputBuffer [width, height],
   Event.setSize BufferId.outputBuffer [width, height],
   Event.setSize BufferId.directRadianceBuffer [width, height],
   Event.setSize BufferId.indirectRadianceBuffer [width, height],
   Event.setSize BufferId.randomStatesBuffer
     [max k.PHOTON_LAUNCH_WIDTH 1280, max k.PHOTON_LAUNCH_HEIGHT 768],
   Event.initializeRandomStates]

/-- The seven stages of one iteration at resolution `width x height`, in order. -/
def stageCalls (k : Constants) (width height : Nat) : List Event :=
  [Event.launch OptixEntryPoint.PPM_PHOTON_PASS k.PHOTON_LAUNCH_WIDTH k.PHOTON_LAUNCH_HEIGHT,
   Event.createUniformGridPhotonMap,
   Event.launch OptixEntryPoint.PPM_INDIRECT_RADIANCE_ESTIMATION_PASS 0 0,
   Event.launch OptixEntryPoint.PPM_RAYTRACE_PASS width height,
   Event.launch OptixEntryPoint.PPM_INDIRECT_RADIANCE_ESTIMATION_PASS width height,
   Event.launch OptixEntryPoint.PPM_DIRECT_RADIANCE_ESTIMATION_PASS width height,
   Event.launch OptixEntryPoint.PPM_OUTPUT_PASS width height]

/-- The calls the `try` block of `renderNextIteration` issues when nothing faults. -/
def iterationCalls (k : Constants) (s : PMOptixRenderer)
    (details : RenderServerRenderRequestDetails) : List Event :=
  (if s.mustResize details then resizeCalls k details.width details.height else []) ++
    stageCalls k details.width details.height ++ [Event.map BufferId.hitsPerMeshBuffer]

/-- A stage of the pipeline: a launch or the photon-map build. -/
def Event.isStage : Event → Bool
  | Event.launch _ _ _ => true
  | Event.createUniformGridPhotonMap => true
  | _ => false

/-- A call made by `resizeBuffers`. -/
def Event.isResize : Event → Bool
  | Event.setSize _ _ => true
  | Event.initializeRandomStates => true
  | _ => false

/-- The calls issued between the object `s` and the later object `s'`. -/
def issuedBetween (s s' : PMOptixRenderer) : List Event :=
  s'.m_context.trace.drop s.m_context.trace.length

/-- The runtime's answer to a list of calls issued one after the other once `issued` has
been issued: the calls issued in the end (the faulting one included, nothing after it) and
the message of the first fault, if any. -/
def Runtime.run (rt : Runtime) : List Event → List Event → List Event × Option String
  | issued, [] => (issued, none)
  | issued, ev :: rest =>
    match rt.fault issued ev with
    | some what => (issued ++ [ev], some what)
    | none => rt.run (issued ++ [ev]) rest

/-- The outcome `out` of a block of calls agrees with the runtime's answer `r` to the
same calls: same calls issued, same fault (thrown unwrapped). -/
def Agrees (out : Except Error Unit × PMOptixRenderer) (r : List Event × Option String) :
    Prop :=
  out.2.m_context.trace = r.1 ∧
    ((out.1 = Except.ok () ∧ r.2 = none) ∨
      ∃ what, out.1 = Except.error (Error.optix what) ∧ r.2 = some what)

/-- The members that depend on the resolution are the same in `s1` as in `s`. -/
def Unresized (s s1 : PMOptixRenderer) : Prop :=
  s1.m_initialized = s.m_initialized ∧ s1.m_width = s.m_width ∧ s1.m_height = s.m_height ∧
  s1.m_outputBuffer = s.m_outputBuffer ∧
  s1.m_raytracePassOutputBuffer = s.m_raytracePassOutputBuffer ∧
  s1.m_directRadianceBuffer = s.m_directRadianceBuffer ∧
  s1.m_indirectRadianceBuffer = s.m_indirectRadianceBuffer ∧
  s1.m_randomStatesBuffer = s.m_randomStatesBuffer ∧
  s1.m_context.randomStatesGeneration = s.m_context.randomStatesGeneration

/-- The block `x` leaves the members that depend on the resolution alone, however it ends. -/
structure Exec.KeepsResolution {α : Type} (x : Exec α) : Prop where
  keeps : ∀ s, Unresized s (x s).2

/-- The width and height members and the output, hit-point, direct and indirect radiance
buffers all stand at `width x height`. -/
def PMOptixRenderer.sizedTo (s : PMOptixRenderer) (width height : Nat) : Prop :=
  s.getWidth = width ∧ s.getHeight = height ∧
  s.m_outputBuffer = some [width, height] ∧
  s.m_raytracePassOutputBuffer = some [width, height] ∧
  s.m_directRadianceBuffer = some [width, height] ∧
  s.m_indirectRadianceBuffer = some [width, height]

/-- The states a renderer goes through in a run against the runtime `rt`: it is
initialized once, then scenes are bound (successfully or not) and iterations are rendered,
each one returning normally. -/
inductive Reachable (k : Constants) (rt : Runtime) : PMOptixRenderer → Prop
  | afterInitialize (device : ComputeDevice) (s0 s : PMOptixRenderer) :
      PMOptixRenderer.initialize k rt device s0 = (Except.ok (), s) → Reachable k rt s
  | afterInitScene (scene : IScene) (s s' : PMOptixRenderer) (out : Except Error Unit) :
      Reachable k rt s → PMOptixRenderer.initScene rt scene s = (out, s') → Reachable k rt s'
  | afterRender (iterationNumber localIterationNumber : Nat) (PPMRadius : ℚ)
      (createOutput : Bool) (details : RenderServerRenderRequestDetails)
      (s s' : PMOptixRenderer) :
      Reachable k rt s →
      PMOptixRenderer.renderNextIteration k rt iterationNumber localIterationNumber PPMRadius
        createOutput details s = (Except.ok (), s') →
      Reachable k rt s'

/-- A runtime on which no call faults; it reports one device, of CUDA ordinal 0. -/
def quietRuntime : Runtime :=
  { fault := fun _ _ => none
    deviceCount := 1
    cudaDeviceOrdinal := fun _ => 0
    unassigned := fun name => "Variable not found: " ++ name }

/-- A scene with one light and one mesh. -/
def sampleScene : IScene :=
  { sceneLights := [{ id := 0 }]
    numMeshes := 1
    sceneRootGroup := { id := 1 }
    sceneAABB := { id := 0 } }

/-- The renderer after `initialize` on the quiet runtime. -/
def initializedRenderer (k : Constants) : PMOptixRenderer :=
  ( PMOptixRenderer.initialize k quietRuntime { deviceId := 0 } PMOptixRenderer.new).2

/-- The initialized renderer after `initScene` with the sample scene. -/
def sceneBoundRenderer (k : Constants) : PMOptixRenderer :=
  (PMOptixRenderer.initScene quietRuntime sampleScene (initializedRenderer k)).2

/-- A runtime on which exactly the calls selected by `faulty` fault, with the message
`what`; it reports one device, of CUDA ordinal 0. -/
def faultyRuntime (faulty : Event → Bool) (what : String) : Runtime :=
  { fault := fun _ ev => if faulty ev then some what else none
    deviceCount := 1
    cudaDeviceOrdinal := fun _ => 0
    unassigned := fun name => "Variable not found: " ++ name }

/-- The call `getSceneRootGroup` of the scene. -/
def Event.isGetSceneRootGroup : Event → Bool
  | Event.getSceneRootGroup => true
  | _ => false

/-- A launch of the ray trace pass. -/
def Event.isRaytraceLaunch : Event → Bool
  | Event.launch OptixEntryPoint.PPM_RAYTRACE_PASS _ _ => true
  | _ => false

/-- The renderer after `initialize` and `initScene` with the sample scene on the runtime
`rt` (whatever `initScene` returned). -/
def rendererAfterInitScene (k : Constants) (rt : Runtime) : PMOptixRenderer :=
  (PMOptixRenderer.initScene rt sampleScene
    ( PMOptixRenderer.initialize k rt { deviceId := 0 } PMOptixRenderer.new).2).2

/-- Constants with ten emitted photons per iteration (a 5 x 2 photon launch). -/
def tenPhotonConstants : Constants :=
  { PHOTON_LAUNCH_WIDTH := 5, PHOTON_LAUNCH_HEIGHT := 2, MAX_PHOTON_COUNT := 1 }

/-- A render request at 1920 x 1080. -/
def fullHDRequest : RenderServerRenderRequestDetails :=
  { width := 1920, height := 1080, camera := { id := 0 }, ppmAlpha := 1 }

/-- A render request at the renderer's initial resolution, 10 x 10. -/
def sampleRequest (ppmAlpha : ℚ) : RenderServerRenderRequestDetails :=
  { width := 10, height := 10, camera := { id := 0 }, ppmAlpha := ppmAlpha }

/-- The sample renderer after the iterations `0, ..., n-1`, rendered one after the other
on the quiet runtime with radius 1 and alpha 7/10. -/
def sampleRun (k : Constants) : Nat → PMOptixRenderer
  | 0 => sceneBoundRenderer k
  | n + 1 =>
    (PMOptixRenderer.renderNextIteration k quietRuntime n n 1 true (sampleRequest (7 / 10))
      (sampleRun k n)).2

/-! ## Reasoning about `Exec` -/

section framework
variable {α β γ : Type}

theorem Exec.bind_eq (x : Exec α) (f : α → Exec β) : x >>= f = Exec.bind x f := rfl

theorem Exec.pure_bind (a : α) (f : α → Exec β) : Exec.bind (pure a) f = f a := rfl

theorem Exec.bind_assoc (x : Exec α) (f : α → Exec β) (g : β → Exec γ) :
    Exec.bind (Exec.bind x f) g = Exec.bind x fun a => Exec.bind (f a) g := by
  funext s
  simp only [Exec.bind]
  rcases x s with ⟨r, s1⟩
  cases r <;> rfl

theorem Exec.ite_bind (c : Prop) [Decidable c] (x y : Exec α) (f : α → Exec β) :
    Exec.bind (if c then x else y) f = if c then Exec.bind x f else Exec.bind y f := by
  split <;> rfl

theorem Exec.ite_apply (c : Prop) [Decidable c] (x y : Exec α) (s : PMOptixRenderer) :
    (if c then x else y) s = if c then x s else y s := by
  split <;> rfl

theorem Exec.throw_bind (e : Error) (f : α → Exec β) :
    Exec.bind (Exec.throw e) f = Exec.throw e := rfl

theorem Exec.get_bind_apply (f : PMOptixRenderer → Exec β) (s : PMOptixRenderer) :
    Exec.bind Exec.get f s = f s s := rfl

theorem Exec.modify_bind_apply (m : PMOptixRenderer → PMOptixRenderer) (f : Unit → Exec β)
    (s : PMOptixRenderer) : Exec.bind (Exec.modify m) f s = f () (m s) := rfl

theorem Exec.modifyContext_bind_apply (m : Context → Context) (f : Unit → Exec β)
    (s : PMOptixRenderer) :
    Exec.bind (Exec.modifyContext m) f s = f () { s with m_context := m s.m_context } := rfl

theorem Exec.throw_apply (e : Error) (s : PMOptixRenderer) :
    (Exec.throw e : Exec α) s = (Except.error e, s) := rfl

theorem Exec.modify_apply (m : PMOptixRenderer → PMOptixRenderer) (s : PMOptixRenderer) :
    Exec.modify m s = (Except.ok (), m s) := rfl

theorem Exec.issue_apply (rt : Runtime) (ev : Event) (s : PMOptixRenderer) :
    Exec.issue rt ev s =
      match rt.fault s.m_context.trace ev with
      | some what => (Except.error (Error.optix what), s.record ev)
      | none => (Except.ok (), s.record ev) := rfl

theorem Exec.issue_bind_apply (rt : Runtime) (ev : Event) (f : Unit → Exec β)
    (s : PMOptixRenderer) :
    Exec.bind (Exec.issue rt ev) f s =
      match rt.fault s.m_context.trace ev with
      | some what => (Except.error (Error.optix what), s.record ev)
      | none => f () (s.record ev) := by
  simp only [Exec.bind, Exec.issue_apply]
  cases rt.fault s.m_context.trace ev <;> rfl

theorem Exec.getVariable_apply (rt : Runtime) (name : String) (read : Context → Option α)
    (s : PMOptixRenderer) :
    Exec.getVariable rt name read s =
      match read s.m_context with
      | some v => (Except.ok v, s)
      | none => (Except.error (Error.optix (rt.unassigned name)), s) := rfl

theorem Exec.getVariable_bind_apply (rt : Runtime) (name : String) (read : Context → Option α)
    (f : α → Exec β) (s : PMOptixRenderer) :
    Exec.bind (Exec.getVariable rt name read) f s =
      match read s.m_context with
      | some v => f v s
      | none => (Except.error (Error.optix (rt.unassigned name)), s) := by
  simp only [Exec.bind, Exec.getVariable_apply]
  cases read s.m_context <;> rfl

theorem Exec.ok_issue (rt : Runtime) (ev : Event) (s s' : PMOptixRenderer) (u : Unit) :
    Exec.issue rt ev s = (Except.ok u, s') ↔
      rt.fault s.m_context.trace ev = none ∧ s' = s.record ev := by
  rw [Exec.issue_apply]
  cases rt.fault s.m_context.trace ev <;> simp [eq_comm]

theorem Exec.ok_issue_bind (rt : Runtime) (ev : Event) (f : Unit → Exec β)
    (s s' : PMOptixRenderer) (b : β) :
    Exec.bind (Exec.issue rt ev) f s = (Except.ok b, s') ↔
      rt.fault s.m_context.trace ev = none ∧ f () (s.record ev) = (Except.ok b, s') := by
  rw [Exec.issue_bind_apply]
  cases rt.fault s.m_context.trace ev <;> simp

theorem Exec.ok_tryCatchOptix (body : Exec Unit) (wrap : String → String)
    (s s' : PMOptixRenderer) (u : Unit) :
    Exec.tryCatchOptix body wrap s = (Except.ok u, s') ↔ body s = (Except.ok u, s') := by
  unfold Exec.tryCatchOptix
  rcases body s with ⟨r, s1⟩
  rcases r with e | a
  · cases e <;> simp
  · simp

end framework

/-! ## The iteration -/

theorem renderNextIteration_ok (k : Constants) (rt : Runtime) (g l : Nat) (r : ℚ) (co : Bool)
    (d : RenderServerRenderRequestDetails) (s s' : PMOptixRenderer) (u : Unit)
    (hr : PMOptixRenderer.renderNextIteration k rt g l r co d s = (Except.ok u, s')) :
    s.m_initialized = true ∧ s'.m_initialized = true ∧
    s'.m_width = d.width ∧ s'.m_height = d.height ∧
    s'.m_context.trace =
      s.m_context.trace ++ [Event.map BufferId.hitsPerMeshBuffer] ++ iterationCalls k s d ∧
    s'.m_context.ppmAlpha = some d.ppmAlpha ∧
    s'.m_context.ppmRadius = some r ∧
    s'.m_context.ppmRadiusSquared = some (r * r) ∧
    s'.m_context.ppmRadiusSquaredNew = some (ppmRadiusSquaredNew g d.ppmAlpha (r * r)) ∧
    s'.m_context.totalEmitted = some (totalEmitted k g : ℚ) ∧
    (s.mustResize d →
      s'.m_outputBuffer = some [d.width, d.height] ∧
      s'.m_raytracePassOutputBuffer = some [d.width, d.height] ∧
      s'.m_directRadianceBuffer = some [d.width, d.height] ∧
      s'.m_indirectRadianceBuffer = some [d.width, d.height] ∧
      s'.m_randomStatesBuffer =
        some [max k.PHOTON_LAUNCH_WIDTH 1280, max k.PHOTON_LAUNCH_HEIGHT 768] ∧
      s'.m_context.randomStatesGeneration = s.m_context.randomStatesGeneration + 1) ∧
    (¬ s.mustResize d →
      s'.m_outputBuffer = s.m_outputBuffer ∧
      s'.m_raytracePassOutputBuffer = s.m_raytracePassOutputBuffer ∧
      s'.m_directRadianceBuffer = s.m_directRadianceBuffer ∧
      s'.m_indirectRadianceBuffer = s.m_indirectRadianceBuffer ∧
      s'.m_randomStatesBuffer = s.m_randomStatesBuffer ∧
      s'.m_context.randomStatesGeneration = s.m_context.randomStatesGeneration) ∧
    s'.m_context.sceneNMeshes = s.m_context.sceneNMeshes ∧
    (∃ counters, s'.m_context.hitsPerMeshBuffer = some counters) := by
  simp only [PMOptixRenderer.renderNextIteration, Exec.bind_eq, Exec.bind_assoc, Exec.pure_bind,
    Exec.throw_bind, Exec.get_bind_apply, Exec.ite_apply, Exec.throw_apply,
    Exec.getVariable_bind_apply] at hr
  cases hi : s.m_initialized
  · simp [hi] at hr
  cases hn : s.m_context.sceneNMeshes with
  | none => simp [hi, hn] at hr
  | some n =>
  cases hh : s.m_context.hitsPerMeshBuffer with
  | none => simp [hi, hn, hh] at hr
  | some hits =>
  simp only [hi, hn, hh, Bool.not_true, Bool.false_eq_true, if_false, Exec.ok_issue_bind,
    Exec.modifyContext_bind_apply, Exec.ok_tryCatchOptix, Exec.get_bind_apply, Exec.ite_apply,
    PMOptixRenderer.record] at hr
  obtain ⟨-, hr⟩ := hr
  by_cases hc : s.mustResize d
  · have hc' := hc
    unfold PMOptixRenderer.mustResize at hc'
    simp only [hc', if_true, PMOptixRenderer.resizeBuffers, PMOptixRenderer.initializeRandomStates,
      PMOptixRenderer.createUniformGridPhotonMap, Exec.bind_eq, Exec.bind_assoc, Exec.ok_issue_bind,
      Exec.ok_issue, Exec.modify_bind_apply, Exec.modifyContext_bind_apply, Exec.pure_bind,
      Exec.get_bind_apply, Exec.getVariable_bind_apply,
      PMOptixRenderer.record, hn, hh] at hr
    obtain ⟨-, -, -, -, -, -, -, -, -, -, -, -, -, -, -, rfl⟩ := hr
    simp [iterationCalls, hc, resizeCalls, stageCalls, hn]
  · have hc' := hc
    unfold PMOptixRenderer.mustResize at hc'
    simp only [hc', if_false, PMOptixRenderer.createUniformGridPhotonMap, Exec.bind_eq,
      Exec.bind_assoc, Exec.ok_issue_bind,
      Exec.ok_issue, Exec.modify_bind_apply, Exec.modifyContext_bind_apply, Exec.pure_bind,
      Exec.get_bind_apply, Exec.getVariable_bind_apply,
      PMOptixRenderer.record, hn, hh] at hr
    obtain ⟨-, -, -, -, -, -, -, -, rfl⟩ := hr
    simp only [not_or, not_not] at hc'
    simp [iterationCalls, hc, resizeCalls, stageCalls, hc'.1, hc'.2, hn]

theorem agrees_issue (rt : Runtime) (ev : Event) (s : PMOptixRenderer) :
    Agrees (Exec.issue rt ev s) (rt.run s.m_context.trace [ev]) := by
  unfold Agrees Runtime.run Exec.issue
  cases rt.fault s.m_context.trace ev <;> simp [Runtime.run, PMOptixRenderer.record]

theorem agrees_issue_bind (rt : Runtime) (ev : Event) (rest : List Event) (f : Unit → Exec Unit)
    (s : PMOptixRenderer)
    (h : rt.fault s.m_context.trace ev = none →
      Agrees (f () (s.record ev)) (rt.run (s.m_context.trace ++ [ev]) rest)) :
    Agrees (Exec.bind (Exec.issue rt ev) f s) (rt.run s.m_context.trace (ev :: rest)) := by
  rw [Exec.issue_bind_apply]
  unfold Runtime.run
  cases hf : rt.fault s.m_context.trace ev with
  | none => simpa using h hf
  | some what => simp [Agrees, PMOptixRenderer.record]

theorem agrees_tryCatchOptix (body : Exec Unit) (wrap : String → String) (s : PMOptixRenderer)
    (r : List Event × Option String) (h : Agrees (body s) r) :
    (Exec.tryCatchOptix body wrap s).2.m_context.trace = r.1 ∧
    (Exec.tryCatchOptix body wrap s).1 =
      match r.2 with
      | none => Except.ok ()
      | some what => Except.error (Error.std (wrap what)) := by
  unfold Exec.tryCatchOptix
  obtain ⟨ht, ⟨h1, h2⟩ | ⟨what, h1, h2⟩⟩ := h
  · rcases hb : body s with ⟨o, s1⟩
    rw [hb] at h1 ht
    simp only at h1 ht
    subst h1
    simp [h2, ht]
  · rcases hb : body s with ⟨o, s1⟩
    rw [hb] at h1 ht
    simp only at h1 ht
    subst h1
    simp [h2, ht]

theorem renderNextIteration_run (k : Constants) (rt : Runtime) (g l : Nat) (r : ℚ) (co : Bool)
    (d : RenderServerRenderRequestDetails) (s : PMOptixRenderer) (n : Nat) (hits : List Nat)
    (hi : s.m_initialized = true) (hn : s.m_context.sceneNMeshes = some n)
    (hh : s.m_context.hitsPerMeshBuffer = some hits)
    (hm : rt.fault s.m_context.trace (Event.map BufferId.hitsPerMeshBuffer) = none) :
    (PMOptixRenderer.renderNextIteration k rt g l r co d s).2.m_context.trace =
        (rt.run (s.m_context.trace ++ [Event.map BufferId.hitsPerMeshBuffer])
          (iterationCalls k s d)).1 ∧
    (PMOptixRenderer.renderNextIteration k rt g l r co d s).1 =
        match (rt.run (s.m_context.trace ++ [Event.map BufferId.hitsPerMeshBuffer])
          (iterationCalls k s d)).2 with
        | none => Except.ok ()
        | some what => Except.error (RenderFault what) := by
  simp only [PMOptixRenderer.renderNextIteration, Exec.bind_eq, Exec.bind_assoc, Exec.pure_bind,
    Exec.throw_bind, Exec.get_bind_apply, Exec.ite_apply, Exec.throw_apply,
    Exec.getVariable_bind_apply, hi, hn, hh, Bool.not_true, Bool.false_eq_true, if_false,
    Exec.issue_bind_apply, hm, Exec.modifyContext_bind_apply, PMOptixRenderer.record]
  unfold RenderFault
  apply agrees_tryCatchOptix
  by_cases hc : s.mustResize d
  · have hc' := hc
    unfold PMOptixRenderer.mustResize at hc'
    simp only [hc', if_true, PMOptixRenderer.resizeBuffers, PMOptixRenderer.initializeRandomStates,
      PMOptixRenderer.createUniformGridPhotonMap, Exec.bind_eq, Exec.bind_assoc,
      Exec.modify_bind_apply, Exec.get_bind_apply,
      Exec.modifyContext_bind_apply, Exec.pure_bind,
      iterationCalls, hc,
      resizeCalls, stageCalls, List.cons_append, List.nil_append, List.append_assoc]
    iterate 14
      refine agrees_issue_bind _ _ _ _ _ (fun _ => ?_)
      simp only [Exec.modify_bind_apply, Exec.get_bind_apply, Exec.modifyContext_bind_apply,
        Exec.getVariable_bind_apply,
        PMOptixRenderer.record, hn, hh]
    exact agrees_issue _ _ _
  · have hc' := hc
    unfold PMOptixRenderer.mustResize at hc'
    simp only [not_or, not_not] at hc'
    obtain ⟨hw, hv⟩ := hc'
    simp only [hw, hv, ne_eq, not_true_eq_false, or_self, if_false,
      PMOptixRenderer.createUniformGridPhotonMap, Exec.bind_eq,
      Exec.bind_assoc, Exec.modify_bind_apply, Exec.get_bind_apply,
      Exec.modifyContext_bind_apply, Exec.pure_bind, iterationCalls, hc, stageCalls,
      List.cons_append, List.nil_append, List.append_assoc]
    iterate 7
      refine agrees_issue_bind _ _ _ _ _ (fun _ => ?_)
      simp only [Exec.modify_bind_apply, Exec.get_bind_apply, Exec.modifyContext_bind_apply,
        Exec.getVariable_bind_apply, PMOptixRenderer.record, hn, hh]
    exact agrees_issue _ _ _

/-! ## The runtime's answer to a list of calls -/

theorem Runtime.run_quiet (rt : Runtime) (calls issued : List Event)
    (h : (rt.run issued calls).2 = none) : (rt.run issued calls).1 = issued ++ calls := by
  induction calls generalizing issued with
  | nil => simp [Runtime.run]
  | cons ev rest ih =>
    unfold Runtime.run at h ⊢
    cases hf : rt.fault issued ev with
    | some what => simp [hf] at h
    | none =>
      simp only [hf] at h ⊢
      simpa using ih _ h

theorem Runtime.run_first_fault (rt : Runtime) (pre : List Event) (ev : Event)
    (rest issued : List Event) (what : String)
    (hpre : (rt.run issued pre).2 = none)
    (hev : rt.fault (issued ++ pre) ev = some what) :
    rt.run issued (pre ++ ev :: rest) = (issued ++ pre ++ [ev], some what) := by
  induction pre generalizing issued with
  | nil =>
    simp only [List.append_nil] at hev
    simp [Runtime.run, hev]
  | cons p pre ih =>
    unfold Runtime.run at hpre
    cases hf : rt.fault issued p with
    | some w => simp [hf] at hpre
    | none =>
      simp only [hf] at hpre
      have h := ih (issued ++ [p]) hpre (by simpa using hev)
      simp only [List.cons_append, Runtime.run, hf]
      simpa using h

/-! ## Progressive radius and emitted-photon total -/

theorem Exec.eq_of_fst {α : Type} (x : Except Error α × PMOptixRenderer) (out : Except Error α)
    (h : x.1 = out) : x = (out, x.2) := by
  cases x
  simp only at h
  rw [h]

theorem ppmRadiusSquaredNew_of_lt (g : Nat) (alpha r2 : ℚ) (hg : g + 1 < 2 ^ 64) :
    ppmRadiusSquaredNew g alpha r2 =
      FloatVal.finite (r2 * ((g : ℚ) + alpha) / ((g : ℚ) + 1)) := by
  unfold ppmRadiusSquaredNew FloatVal.div
  rw [Nat.mod_eq_of_lt hg]
  have hne : ((g + 1 : Nat) : ℚ) ≠ 0 := by exact_mod_cast Nat.succ_ne_zero g
  rw [if_neg hne]
  push_cast
  rfl

/-- C1 (amended): for every `iterationNumber` whose increment does not wrap in
`unsigned long long` (`iterationNumber + 1 < 2^64`), every radius and every alpha, a call
of `renderNextIteration` that returns normally has pushed `ppmRadius = PPMRadius`,
`ppmRadiusSquared = PPMRadius * PPMRadius` and
`ppmRadiusSquaredNew = PPMRadius * PPMRadius * (iterationNumber + alpha) / (iterationNumber + 1)`,
with the iteration number of that same call, over the rationals. -/
theorem renderNextIteration_radius_update (k : Constants) (rt : Runtime)
    (iterationNumber localIterationNumber : Nat) (PPMRadius : ℚ) (createOutput : Bool)
    (details : RenderServerRenderRequestDetails) (s s' : PMOptixRenderer)
    (hg : iterationNumber + 1 < 2 ^ 64)
    (hr : PMOptixRenderer.renderNextIteration k rt iterationNumber localIterationNumber PPMRadius
      createOutput details s = (Except.ok (), s')) :
    s'.m_context.ppmRadius = some PPMRadius ∧
    s'.m_context.ppmRadiusSquared = some (PPMRadius * PPMRadius) ∧
    s'.m_context.ppmRadiusSquaredNew =
      some (FloatVal.finite
        (PPMRadius * PPMRadius * ((iterationNumber : ℚ) + details.ppmAlpha) /
          ((iterationNumber : ℚ) + 1))) := by
  have h := renderNextIteration_ok k rt _ _ _ _ _ s s' () hr
  obtain ⟨-, -, -, -, -, -, h1, h2, h3, -⟩ := h
  exact ⟨h1, h2, by rw [h3, ppmRadiusSquaredNew_of_lt _ _ _ hg]⟩

/-- Witness of C1: iteration 3 with radius 2 and alpha 7/10 on the sample renderer. -/
theorem renderNextIteration_radius_update_witness :
    3 + 1 < 2 ^ 64 ∧
    (PMOptixRenderer.renderNextIteration (sourceConstants 4) quietRuntime 3 0 2 true
      (sampleRequest (7 / 10)) (sceneBoundRenderer (sourceConstants 4))).1 = Except.ok () ∧
    (PMOptixRenderer.renderNextIteration (sourceConstants 4) quietRuntime 3 0 2 true
      (sampleRequest (7 / 10))
      (sceneBoundRenderer (sourceConstants 4))).2.m_context.ppmRadiusSquaredNew
      = some (FloatVal.finite (2 * 2 * (((3 : Nat) : ℚ) + 7 / 10) / (((3 : Nat) : ℚ) + 1))) :=
  ⟨by norm_num, rfl,
    (renderNextIteration_radius_update (sourceConstants 4) quietRuntime 3 0 2 true
      (sampleRequest (7 / 10)) (sceneBoundRenderer (sourceConstants 4)) _ (by norm_num)
      (Exec.eq_of_fst _ _ rfl)).2.2⟩

/-- Counterexample to C1 as stated: at `iterationNumber = 2^64 - 1` the increment wraps to
0, the division is by zero and the pushed `ppmRadiusSquaredNew` is not the finite value
`radius^2 * (iterationNumber + alpha) / (iterationNumber + 1)`. -/
theorem renderNextIteration_radius_update_wraps :
    (PMOptixRenderer.renderNextIteration (sourceConstants 4) quietRuntime 18446744073709551615 0
      1 true (sampleRequest 1) (sceneBoundRenderer (sourceConstants 4))).1 = Except.ok () ∧
    (PMOptixRenderer.renderNextIteration (sourceConstants 4) quietRuntime 18446744073709551615 0
      1 true (sampleRequest 1)
      (sceneBoundRenderer (sourceConstants 4))).2.m_context.ppmRadiusSquaredNew =
        some FloatVal.nonfinite ∧
    FloatVal.nonfinite ≠
      FloatVal.finite (1 * 1 * (((18446744073709551615 : Nat) : ℚ) + 1) /
        (((18446744073709551615 : Nat) : ℚ) + 1)) := by
  refine ⟨rfl, ?_, by simp⟩
  have h := renderNextIteration_ok (sourceConstants 4) quietRuntime 18446744073709551615 0 1 true
    (sampleRequest 1) (sceneBoundRenderer (sourceConstants 4)) _ () (Exec.eq_of_fst _ _ rfl)
  obtain ⟨-, -, -, -, -, -, -, -, h3, -⟩ := h
  rw [h3]
  simp [ppmRadiusSquaredNew, FloatVal.div]

/-- C2 (amended): when the increment of `iterationNumber` does not wrap, the
`ppmRadiusSquaredNew` pushed by a call that returns normally is a finite value that is at
most the `ppmRadiusSquared` of the same call when alpha is at most 1, strictly less when
alpha is less than 1 and the radius is not zero, and equal to it when alpha is 1. -/
theorem renderNextIteration_radius_shrinks (k : Constants) (rt : Runtime)
    (iterationNumber localIterationNumber : Nat) (PPMRadius : ℚ) (createOutput : Bool)
    (details : RenderServerRenderRequestDetails) (s s' : PMOptixRenderer)
    (hg : iterationNumber + 1 < 2 ^ 64)
    (hr : PMOptixRenderer.renderNextIteration k rt iterationNumber localIterationNumber PPMRadius
      createOutput details s = (Except.ok (), s')) :
    ∃ next : ℚ,
      s'.m_context.ppmRadiusSquaredNew = some (FloatVal.finite next) ∧
      s'.m_context.ppmRadiusSquared = some (PPMRadius * PPMRadius) ∧
      (details.ppmAlpha ≤ 1 → next ≤ PPMRadius * PPMRadius) ∧
      (details.ppmAlpha < 1 → PPMRadius ≠ 0 → next < PPMRadius * PPMRadius) ∧
      (details.ppmAlpha = 1 → next = PPMRadius * PPMRadius) := by
  have h := renderNextIteration_ok k rt _ _ _ _ _ s s' () hr
  obtain ⟨-, -, -, -, -, -, -, h2, h3, -⟩ := h
  refine ⟨_, by rw [h3, ppmRadiusSquaredNew_of_lt _ _ _ hg], h2, ?_, ?_, ?_⟩
  · intro ha
    have hpos : (0 : ℚ) < (iterationNumber : ℚ) + 1 := by positivity
    rw [div_le_iff₀ hpos]
    have hsq : 0 ≤ PPMRadius * PPMRadius := mul_self_nonneg _
    nlinarith
  · intro ha hne
    have hpos : (0 : ℚ) < (iterationNumber : ℚ) + 1 := by positivity
    rw [div_lt_iff₀ hpos]
    have hsq : 0 < PPMRadius * PPMRadius := mul_self_pos.mpr hne
    nlinarith
  · intro ha
    have hpos : ((iterationNumber : ℚ) + 1) ≠ 0 := by positivity
    rw [ha]
    field_simp

/-- Witness of C2: iteration 3 with radius 2 and alpha 7/10 on the sample renderer. -/
theorem renderNextIteration_radius_shrinks_witness :
    3 + 1 < 2 ^ 64 ∧
    (PMOptixRenderer.renderNextIteration (sourceConstants 4) quietRuntime 3 0 2 true
      (sampleRequest (7 / 10)) (sceneBoundRenderer (sourceConstants 4))).1 = Except.ok () ∧
    ∃ next : ℚ,
      (PMOptixRenderer.renderNextIteration (sourceConstants 4) quietRuntime 3 0 2 true
        (sampleRequest (7 / 10))
        (sceneBoundRenderer (sourceConstants 4))).2.m_context.ppmRadiusSquaredNew =
          some (FloatVal.finite next) ∧ next < 2 * 2 := by
  refine ⟨by norm_num, rfl, ?_⟩
  obtain ⟨next, h1, -, -, h4, -⟩ :=
    renderNextIteration_radius_shrinks (sourceConstants 4) quietRuntime 3 0 2 true
      (sampleRequest (7 / 10)) (sceneBoundRenderer (sourceConstants 4)) _ (by norm_num)
      (Exec.eq_of_fst _ _ rfl)
  exact ⟨next, h1, h4 (by norm_num [sampleRequest]) (by norm_num)⟩

/-- Counterexample to C2 as stated: with radius 0 and alpha 1/2 the pushed
`ppmRadiusSquaredNew` is 0, the same as `ppmRadiusSquared`, not strictly less; and at
`iterationNumber = 2^64 - 1` with radius 1 and alpha 1/2 it is not a finite value at all. -/
theorem renderNextIteration_radius_not_less :
    (PMOptixRenderer.renderNextIteration (sourceConstants 4) quietRuntime 0 0 0 true
      (sampleRequest (1 / 2)) (sceneBoundRenderer (sourceConstants 4))).1 = Except.ok () ∧
    (PMOptixRenderer.renderNextIteration (sourceConstants 4) quietRuntime 0 0 0 true
      (sampleRequest (1 / 2))
      (sceneBoundRenderer (sourceConstants 4))).2.m_context.ppmRadiusSquared = some 0 ∧
    (PMOptixRenderer.renderNextIteration (sourceConstants 4) quietRuntime 0 0 0 true
      (sampleRequest (1 / 2))
      (sceneBoundRenderer (sourceConstants 4))).2.m_context.ppmRadiusSquaredNew =
        some (FloatVal.finite 0) ∧
    ¬ ((0 : ℚ) < 0) ∧
    (PMOptixRenderer.renderNextIteration (sourceConstants 4) quietRuntime 18446744073709551615 0
      1 true (sampleRequest (1 / 2)) (sceneBoundRenderer (sourceConstants 4))).1 = Except.ok () ∧
    (PMOptixRenderer.renderNextIteration (sourceConstants 4) quietRuntime 18446744073709551615 0
      1 true (sampleRequest (1 / 2))
      (sceneBoundRenderer (sourceConstants 4))).2.m_context.ppmRadiusSquaredNew =
        some FloatVal.nonfinite := by
  refine ⟨rfl, ?_, ?_, lt_irrefl 0, rfl, ?_⟩
  · have h := renderNextIteration_ok (sourceConstants 4) quietRuntime 0 0 0 true
      (sampleRequest (1 / 2)) (sceneBoundRenderer (sourceConstants 4)) _ () (Exec.eq_of_fst _ _ rfl)
    obtain ⟨-, -, -, -, -, -, -, h2, -⟩ := h
    rw [h2]
    norm_num
  · have h := renderNextIteration_ok (sourceConstants 4) quietRuntime 0 0 0 true
      (sampleRequest (1 / 2)) (sceneBoundRenderer (sourceConstants 4)) _ () (Exec.eq_of_fst _ _ rfl)
    obtain ⟨-, -, -, -, -, -, -, -, h3, -⟩ := h
    rw [h3]
    simp [ppmRadiusSquaredNew, FloatVal.div]
  · have h := renderNextIteration_ok (sourceConstants 4) quietRuntime 18446744073709551615 0 1
      true (sampleRequest (1 / 2)) (sceneBoundRenderer (sourceConstants 4)) _ ()
      (Exec.eq_of_fst _ _ rfl)
    obtain ⟨-, -, -, -, -, -, -, -, h3, -⟩ := h
    rw [h3]
    simp [ppmRadiusSquaredNew, FloatVal.div]

theorem floatShift_le (fuel m e : Nat) (hm : m < 2 ^ 24) :
    floatShift fuel (m * 2 ^ e) ≤ e := by
  induction fuel generalizing e with
  | zero => exact Nat.zero_le _
  | succ fuel ih =>
    unfold floatShift
    split
    · exact Nat.zero_le _
    · rename_i hge
      cases e with
      | zero =>
        rw [pow_zero, Nat.mul_one] at hge
        exact absurd hm hge
      | succ e =>
        have hhalf : m * 2 ^ (e + 1) / 2 = m * 2 ^ e := by
          rw [pow_succ, ← Nat.mul_assoc, Nat.mul_div_cancel _ (by norm_num)]
        rw [hhalf]
        exact Nat.succ_le_succ (ih e)

theorem toFloat_of_representable (m e : Nat) (hm : m < 2 ^ 24) :
    toFloat (m * 2 ^ e) = m * 2 ^ e := by
  have hdvd : 2 ^ floatShift 64 (m * 2 ^ e) ∣ m * 2 ^ e :=
    Dvd.dvd.mul_left (pow_dvd_pow 2 (floatShift_le 64 m e hm)) m
  have hrest : m * 2 ^ e % 2 ^ floatShift 64 (m * 2 ^ e) = 0 := Nat.mod_eq_zero_of_dvd hdvd
  have hpos : 2 * 0 < 2 ^ floatShift 64 (m * 2 ^ e) := by positivity
  simp only [toFloat, hrest, hpos, if_true]
  exact Nat.div_mul_cancel hdvd

theorem totalEmitted_of_lt_any (k : Constants) (g : Nat)
    (h : (g + 1) * k.EMITTED_PHOTONS_PER_ITERATION < 2 ^ 64) :
    totalEmitted k g = toFloat ((g + 1) * k.EMITTED_PHOTONS_PER_ITERATION) := by
  unfold totalEmitted
  rcases Nat.eq_zero_or_pos k.EMITTED_PHOTONS_PER_ITERATION with h0 | hk
  · simp [h0]
  · have hg : g + 1 < 2 ^ 64 := by
      calc g + 1 = (g + 1) * 1 := (Nat.mul_one _).symm
        _ ≤ (g + 1) * k.EMITTED_PHOTONS_PER_ITERATION := Nat.mul_le_mul_left _ hk
        _ < 2 ^ 64 := h
    rw [Nat.mod_eq_of_lt hg, Nat.mod_eq_of_lt h]

theorem quietRuntime_run (calls issued : List Event) :
    quietRuntime.run issued calls = (issued ++ calls, none) := by
  induction calls generalizing issued with
  | nil => simp [Runtime.run]
  | cons ev rest ih =>
    have hf : quietRuntime.fault issued ev = none := rfl
    simp [Runtime.run, hf, ih]

theorem sampleRun_ready (k : Constants) (n : Nat) :
    (sampleRun k n).m_initialized = true ∧
    (∃ m, (sampleRun k n).m_context.sceneNMeshes = some m) ∧
    (∃ counters, (sampleRun k n).m_context.hitsPerMeshBuffer = some counters) := by
  induction n with
  | zero => exact ⟨rfl, ⟨_, rfl⟩, ⟨_, rfl⟩⟩
  | succ n ih =>
    obtain ⟨hi, ⟨m, hm⟩, ⟨counters, hc⟩⟩ := ih
    have hrun := renderNextIteration_run k quietRuntime n n 1 true (sampleRequest (7 / 10))
      (sampleRun k n) m counters hi hm hc rfl
    rw [quietRuntime_run] at hrun
    have hr := Exec.eq_of_fst _ _ hrun.2
    have h := renderNextIteration_ok k quietRuntime n n 1 true (sampleRequest (7 / 10))
      (sampleRun k n) (sampleRun k (n + 1)) () hr
    obtain ⟨-, h2, -, -, -, -, -, -, -, -, -, -, h13, h14⟩ := h
    exact ⟨h2, ⟨m, by rw [h13, hm]⟩, h14⟩

theorem sampleRun_ok (k : Constants) (n : Nat) :
    PMOptixRenderer.renderNextIteration k quietRuntime n n 1 true (sampleRequest (7 / 10))
      (sampleRun k n) = (Except.ok (), sampleRun k (n + 1)) := by
  obtain ⟨hi, ⟨m, hm⟩, ⟨counters, hc⟩⟩ := sampleRun_ready k n
  have hrun := renderNextIteration_run k quietRuntime n n 1 true (sampleRequest (7 / 10))
    (sampleRun k n) m counters hi hm hc rfl
  rw [quietRuntime_run] at hrun
  exact Exec.eq_of_fst _ _ hrun.2

/-- C3 (amended): after a call of `renderNextIteration` that returns normally, made with
iteration number `i` (an `unsigned long long`) such that `(i+1) * E` does not wrap in
`unsigned long long` (`(i+1) * E < 2^64`, `E = EMITTED_PHOTONS_PER_ITERATION`),
`totalEmitted` is the `float` nearest to `(i+1) * E` whatever it was before the call (it is
assigned, not accumulated); it is `(i+1) * E` itself when that number is a `float`, that is
`m * 2^e` with `m < 2^24`. -/
theorem renderNextIteration_totalEmitted (k : Constants) (rt : Runtime)
    (iterationNumber localIterationNumber : Nat) (PPMRadius : ℚ) (createOutput : Bool)
    (details : RenderServerRenderRequestDetails) (s s' : PMOptixRenderer)
    (hE : (iterationNumber + 1) * k.EMITTED_PHOTONS_PER_ITERATION < 2 ^ 64)
    (hr : PMOptixRenderer.renderNextIteration k rt iterationNumber localIterationNumber PPMRadius
      createOutput details s = (Except.ok (), s')) :
    s'.m_context.totalEmitted =
      some ((toFloat ((iterationNumber + 1) * k.EMITTED_PHOTONS_PER_ITERATION) : Nat) : ℚ) ∧
    ∀ m e : Nat, m < 2 ^ 24 →
      (iterationNumber + 1) * k.EMITTED_PHOTONS_PER_ITERATION = m * 2 ^ e →
      s'.m_context.totalEmitted =
        some (((iterationNumber + 1) * k.EMITTED_PHOTONS_PER_ITERATION : Nat) : ℚ) := by
  have h := renderNextIteration_ok k rt _ _ _ _ _ s s' () hr
  obtain ⟨-, -, -, -, -, -, -, -, -, h4, -⟩ := h
  rw [h4, totalEmitted_of_lt_any k _ hE]
  refine ⟨rfl, fun m e hm hrep => ?_⟩
  rw [hrep, toFloat_of_representable m e hm]

/-- Witness of C3: with ten emitted photons per iteration, the calls with iteration
numbers 0, 1, 2 made one after the other leave the totals 10, 20, 30. -/
theorem renderNextIteration_totalEmitted_witness :
    tenPhotonConstants.EMITTED_PHOTONS_PER_ITERATION = 10 ∧
    (PMOptixRenderer.renderNextIteration tenPhotonConstants quietRuntime 0 0 1 true
      (sampleRequest (7 / 10)) (sampleRun tenPhotonConstants 0)).1 = Except.ok () ∧
    (sampleRun tenPhotonConstants 1).m_context.totalEmitted = some 10 ∧
    (PMOptixRenderer.renderNextIteration tenPhotonConstants quietRuntime 1 1 1 true
      (sampleRequest (7 / 10)) (sampleRun tenPhotonConstants 1)).1 = Except.ok () ∧
    (sampleRun tenPhotonConstants 2).m_context.totalEmitted = some 20 ∧
    (PMOptixRenderer.renderNextIteration tenPhotonConstants quietRuntime 2 2 1 true
      (sampleRequest (7 / 10)) (sampleRun tenPhotonConstants 2)).1 = Except.ok () ∧
    (sampleRun tenPhotonConstants 3).m_context.totalEmitted = some 30 := by
  have hE : tenPhotonConstants.EMITTED_PHOTONS_PER_ITERATION = 10 := by decide
  refine ⟨hE, rfl, ?_, rfl, ?_, rfl, ?_⟩
  · have h := (renderNextIteration_totalEmitted tenPhotonConstants quietRuntime 0 0 1 true
      (sampleRequest (7 / 10)) (sampleRun tenPhotonConstants 0) (sampleRun tenPhotonConstants 1)
      (by rw [hE]; norm_num) (Exec.eq_of_fst _ _ rfl)).2 10 0 (by norm_num)
      (by rw [hE]; norm_num)
    rw [h, hE]
    norm_num
  · have h := (renderNextIteration_totalEmitted tenPhotonConstants quietRuntime 1 1 1 true
      (sampleRequest (7 / 10)) (sampleRun tenPhotonConstants 1) (sampleRun tenPhotonConstants 2)
      (by rw [hE]; norm_num) (Exec.eq_of_fst _ _ rfl)).2 20 0 (by norm_num)
      (by rw [hE]; norm_num)
    rw [h, hE]
    norm_num
  · have h := (renderNextIteration_totalEmitted tenPhotonConstants quietRuntime 2 2 1 true
      (sampleRequest (7 / 10)) (sampleRun tenPhotonConstants 2) (sampleRun tenPhotonConstants 3)
      (by rw [hE]; norm_num) (Exec.eq_of_fst _ _ rfl)).2 30 0 (by norm_num)
      (by rw [hE]; norm_num)
    rw [h, hE]
    norm_num

/-- Counterexample to C3 as stated: with the source's constants (2^20 photons emitted per
iteration) every call of the run with iteration numbers `0, 1, 2, ...` on the sample
renderer returns normally.  The call with iteration number `i = 2^24` leaves
`totalEmitted = 17592186044416`, although `(i+1) * E = 17592187092992`, which is below
2^64: the product is not a `float` and is rounded.  The call with iteration number
`i = 2^44 - 1` leaves `totalEmitted = 0`, although `(i+1) * E = 2^64`: the product wraps in
`unsigned long long`. -/
theorem renderNextIteration_totalEmitted_wraps :
    (∀ i, PMOptixRenderer.renderNextIteration (sourceConstants 4) quietRuntime i i 1 true
      (sampleRequest (7 / 10)) (sampleRun (sourceConstants 4) i) =
        (Except.ok (), sampleRun (sourceConstants 4) (i + 1))) ∧
    (sampleRun (sourceConstants 4) (16777216 + 1)).m_context.totalEmitted =
      some 17592186044416 ∧
    (16777216 + 1) * (sourceConstants 4).EMITTED_PHOTONS_PER_ITERATION = 17592187092992 ∧
    17592187092992 < 2 ^ 64 ∧
    (sampleRun (sourceConstants 4) (17592186044415 + 1)).m_context.totalEmitted = some 0 ∧
    (17592186044415 + 1) * (sourceConstants 4).EMITTED_PHOTONS_PER_ITERATION = 2 ^ 64 := by
  refine ⟨sampleRun_ok (sourceConstants 4), ?_, by decide, by decide, ?_, by decide⟩
  · have h := renderNextIteration_ok (sourceConstants 4) quietRuntime 16777216
      16777216 1 true (sampleRequest (7 / 10)) _ _ ()
      (sampleRun_ok (sourceConstants 4) 16777216)
    obtain ⟨-, -, -, -, -, -, -, -, -, h4, -⟩ := h
    rw [h4]
    have : totalEmitted (sourceConstants 4) 16777216 = 17592186044416 := by decide
    rw [this]
    norm_num
  · have h := renderNextIteration_ok (sourceConstants 4) quietRuntime 17592186044415
      17592186044415 1 true (sampleRequest (7 / 10)) _ _ ()
      (sampleRun_ok (sourceConstants 4) 17592186044415)
    obtain ⟨-, -, -, -, -, -, -, -, -, h4, -⟩ := h
    rw [h4]
    have : totalEmitted (sourceConstants 4) 17592186044415 = 0 := by decide
    rw [this]
    norm_num

/-! ## Precondition checks -/

/-- C4: on a renderer whose `initialize` has completed (`m_initialized` is set, which only
the last statement of `initialize` does), another call of `initialize` throws the
`AlreadyInitialized` exception and leaves the whole object unchanged: no call has been
issued to the runtime (no device selected, no buffer or program created) and the flag,
width, height and buffers are as before. -/
theorem initialize_twice (k : Constants) (rt : Runtime) (device : ComputeDevice)
    (s : PMOptixRenderer) (h : s.m_initialized = true) :
    PMOptixRenderer.initialize k rt device s = (Except.error AlreadyInitialized, s) := by
  simp only [ PMOptixRenderer.initialize, Exec.bind_eq, Exec.bind_assoc, Exec.get_bind_apply,
    Exec.ite_bind, Exec.ite_apply, Exec.throw_bind, Exec.throw_apply, h, if_true,
    AlreadyInitialized]

/-- Witness of C4: the second `initialize` on the sample renderer, whose first
`initialize` returned normally. -/
theorem initialize_twice_witness :
    ( PMOptixRenderer.initialize (sourceConstants 4) quietRuntime { deviceId := 0 }
      PMOptixRenderer.new).1 = Except.ok () ∧
    (initializedRenderer (sourceConstants 4)).m_initialized = true ∧
    PMOptixRenderer.initialize (sourceConstants 4) quietRuntime { deviceId := 0 }
      (initializedRenderer (sourceConstants 4)) =
        (Except.error AlreadyInitialized, initializedRenderer (sourceConstants 4)) :=
  ⟨rfl, rfl, initialize_twice (sourceConstants 4) quietRuntime { deviceId := 0 }
    (initializedRenderer (sourceConstants 4)) rfl⟩

/-- C5: `initScene` throws `NotInitialized` when `initialize` has not completed, and
otherwise `EmptyScene` when the scene has no light; in both cases the whole object is
unchanged: no call has been issued (no hit-counter buffer allocated) and the scene root,
light buffer and bounding volume are as before. -/
theorem initScene_rejects (rt : Runtime) (scene : IScene) (s : PMOptixRenderer)
    (h : s.m_initialized = false ∨ scene.sceneLights = []) :
    PMOptixRenderer.initScene rt scene s =
      (Except.error (if s.m_initialized = false then NotInitialized else EmptyScene), s) := by
  cases hi : s.m_initialized
  · simp only [PMOptixRenderer.initScene, Exec.bind_eq, Exec.bind_assoc, Exec.get_bind_apply,
      Exec.ite_bind, Exec.ite_apply, Exec.throw_bind, Exec.throw_apply, hi, Bool.not_false,
      if_true, NotInitialized]
  · rcases h with h | h
    · rw [hi] at h
      cases h
    · simp [PMOptixRenderer.initScene, Exec.bind_eq, Exec.bind_assoc, Exec.get_bind_apply,
        Exec.ite_bind, Exec.ite_apply, Exec.throw_bind, Exec.throw_apply, hi, h, EmptyScene,
        Exec.pure_bind]

/-- Witness of C5: a scene without lights on the initialized sample renderer. -/
theorem initScene_rejects_witness :
    ((initializedRenderer (sourceConstants 4)).m_initialized = false ∨
      ({ sampleScene with sceneLights := [] } : IScene).sceneLights = []) ∧
    PMOptixRenderer.initScene quietRuntime { sampleScene with sceneLights := [] }
      (initializedRenderer (sourceConstants 4)) =
        (Except.error EmptyScene, initializedRenderer (sourceConstants 4)) :=
  ⟨Or.inr rfl, initScene_rejects quietRuntime { sampleScene with sceneLights := [] }
    (initializedRenderer (sourceConstants 4)) (Or.inr rfl)⟩

theorem renderFault_ne_notReady (what : String) : RenderFault what ≠ NotReady := by
  intro h
  unfold RenderFault NotReady at h
  have h1 : "An OptiX error occurred: " ++ what =
      "Traced before PMOptixRenderer was initialized." := Error.std.inj h
  have h2 := congrArg (fun x : String => x.data.head?) h1
  simp [String.data_append] at h2

/-- C6 (amended): on an initialized renderer `renderNextIteration` never throws
`NotReady`, bound scene or not: that exception belongs to the check of the initialized
flag, and there is no check that a scene is bound.  When the scene variables were never
assigned (no `initScene` went past its checks) the call issues nothing to the runtime,
so launches no pass, and fails with the runtime's exception for reading `sceneNMeshes`,
thrown unwrapped, leaving the object unchanged. -/
theorem renderNextIteration_initialized (k : Constants) (rt : Runtime)
    (iterationNumber localIterationNumber : Nat) (PPMRadius : ℚ) (createOutput : Bool)
    (details : RenderServerRenderRequestDetails) (s : PMOptixRenderer)
    (hi : s.m_initialized = true) :
    (PMOptixRenderer.renderNextIteration k rt iterationNumber localIterationNumber PPMRadius
      createOutput details s).1 ≠ Except.error NotReady ∧
    (s.m_context.sceneNMeshes = none →
      PMOptixRenderer.renderNextIteration k rt iterationNumber localIterationNumber PPMRadius
        createOutput details s = (Except.error (Error.optix (rt.unassigned "sceneNMeshes")), s)) := by
  refine ⟨?_, ?_⟩
  · cases hn : s.m_context.sceneNMeshes with
    | none =>
      simp [PMOptixRenderer.renderNextIteration, Exec.bind_eq, Exec.bind_assoc,
        Exec.get_bind_apply, Exec.ite_apply, Exec.pure_bind, Exec.getVariable_bind_apply, hi,
        hn, NotReady]
    | some n =>
    cases hh : s.m_context.hitsPerMeshBuffer with
    | none =>
      simp [PMOptixRenderer.renderNextIteration, Exec.bind_eq, Exec.bind_assoc,
        Exec.get_bind_apply, Exec.ite_apply, Exec.pure_bind, Exec.getVariable_bind_apply, hi,
        hn, hh, NotReady]
    | some hits =>
    cases hm : rt.fault s.m_context.trace (Event.map BufferId.hitsPerMeshBuffer) with
    | some what =>
      simp [PMOptixRenderer.renderNextIteration, Exec.bind_eq, Exec.bind_assoc,
        Exec.get_bind_apply, Exec.ite_apply, Exec.pure_bind, Exec.getVariable_bind_apply,
        Exec.issue_bind_apply, hi, hn, hh, hm, NotReady]
    | none =>
      rw [(renderNextIteration_run k rt iterationNumber localIterationNumber PPMRadius
        createOutput details s n hits hi hn hh hm).2]
      cases (rt.run (s.m_context.trace ++ [Event.map BufferId.hitsPerMeshBuffer])
        (iterationCalls k s details)).2 with
      | none => simp
      | some what =>
        intro h
        exact renderFault_ne_notReady what (Except.error.inj h)
  · intro hn
    simp [PMOptixRenderer.renderNextIteration, Exec.bind_eq, Exec.bind_assoc,
      Exec.get_bind_apply, Exec.ite_apply, Exec.pure_bind, Exec.getVariable_bind_apply, hi, hn]

/-- Witness of C6: the initialized sample renderer, on which no scene was bound. -/
theorem renderNextIteration_initialized_witness :
    (initializedRenderer (sourceConstants 4)).m_initialized = true ∧
    (initializedRenderer (sourceConstants 4)).m_context.sceneNMeshes = none ∧
    PMOptixRenderer.renderNextIteration (sourceConstants 4) quietRuntime 0 0 1 true
      (sampleRequest 1) (initializedRenderer (sourceConstants 4)) =
        (Except.error (Error.optix (quietRuntime.unassigned "sceneNMeshes")),
          initializedRenderer (sourceConstants 4)) :=
  ⟨rfl, rfl, (renderNextIteration_initialized (sourceConstants 4) quietRuntime 0 0 1 true
    (sampleRequest 1) (initializedRenderer (sourceConstants 4)) rfl).2 rfl⟩

/-- Counterexample to C6 as stated.  On the initialized sample renderer, before any
`initScene`, `renderNextIteration` fails with the runtime's exception for the unassigned
`sceneNMeshes`, which is not `NotReady`.  And when `initScene` has failed in the scene's
`getSceneRootGroup` (so it has not succeeded), `renderNextIteration` returns normally and
has launched all seven stages. -/
theorem renderNextIteration_without_scene :
    (initializedRenderer (sourceConstants 4)).m_initialized = true ∧
    (PMOptixRenderer.renderNextIteration (sourceConstants 4) quietRuntime 0 0 1 true
      (sampleRequest 1) (initializedRenderer (sourceConstants 4))).1 =
        Except.error (Error.optix "Variable not found: sceneNMeshes") ∧
    Except.error (Error.optix "Variable not found: sceneNMeshes") ≠
      (Except.error NotReady : Except Error Unit) ∧
    (PMOptixRenderer.initScene (faultyRuntime Event.isGetSceneRootGroup "no geometry") sampleScene
      ( PMOptixRenderer.initialize (sourceConstants 4)
        (faultyRuntime Event.isGetSceneRootGroup "no geometry") { deviceId := 0 }
        PMOptixRenderer.new).2).1 =
        Except.error (Error.std
          "An OptiX error occurred when initializing scene: no geometry") ∧
    (PMOptixRenderer.renderNextIteration (sourceConstants 4)
      (faultyRuntime Event.isGetSceneRootGroup "no geometry") 0 0 1 true (sampleRequest 1)
      (rendererAfterInitScene (sourceConstants 4)
        (faultyRuntime Event.isGetSceneRootGroup "no geometry"))).1 = Except.ok () ∧
    (issuedBetween
      (rendererAfterInitScene (sourceConstants 4)
        (faultyRuntime Event.isGetSceneRootGroup "no geometry"))
      (PMOptixRenderer.renderNextIteration (sourceConstants 4)
        (faultyRuntime Event.isGetSceneRootGroup "no geometry") 0 0 1 true (sampleRequest 1)
        (rendererAfterInitScene (sourceConstants 4)
          (faultyRuntime Event.isGetSceneRootGroup "no geometry"))).2).filter Event.isStage =
      stageCalls (sourceConstants 4) 10 10 := by
  refine ⟨rfl, rfl, ?_, rfl, rfl, rfl⟩
  simp [NotReady]

/-! ## The pipeline of one iteration -/

theorem issuedBetween_of_trace (s s' : PMOptixRenderer) (calls : List Event)
    (h : s'.m_context.trace = s.m_context.trace ++ calls) : issuedBetween s s' = calls := by
  unfold issuedBetween
  rw [h, List.drop_left]

/-- C7: a call of `renderNextIteration` that returns normally, for a request of resolution
`w x h`, has issued exactly these stages, in this order: the photon pass over
`PHOTON_LAUNCH_WIDTH x PHOTON_LAUNCH_HEIGHT`, the photon-map build, a launch of extent
`0 x 0`, the ray trace pass over `w x h`, the indirect radiance estimation pass over `w x h`,
the direct radiance estimation pass over `w x h`, the output pass over `w x h`.  Around
them it has only mapped the hit counters (before and after) and, when the resolution
changed, resized the buffers (before the first stage). -/
theorem renderNextIteration_stages (k : Constants) (rt : Runtime)
    (iterationNumber localIterationNumber : Nat) (PPMRadius : ℚ) (createOutput : Bool)
    (details : RenderServerRenderRequestDetails) (s s' : PMOptixRenderer)
    (hr : PMOptixRenderer.renderNextIteration k rt iterationNumber localIterationNumber PPMRadius
      createOutput details s = (Except.ok (), s')) :
    (issuedBetween s s').filter Event.isStage =
      [Event.launch OptixEntryPoint.PPM_PHOTON_PASS k.PHOTON_LAUNCH_WIDTH k.PHOTON_LAUNCH_HEIGHT,
       Event.createUniformGridPhotonMap,
       Event.launch OptixEntryPoint.PPM_INDIRECT_RADIANCE_ESTIMATION_PASS 0 0,
       Event.launch OptixEntryPoint.PPM_RAYTRACE_PASS details.width details.height,
       Event.launch OptixEntryPoint.PPM_INDIRECT_RADIANCE_ESTIMATION_PASS details.width
         details.height,
       Event.launch OptixEntryPoint.PPM_DIRECT_RADIANCE_ESTIMATION_PASS details.width
         details.height,
       Event.launch OptixEntryPoint.PPM_OUTPUT_PASS details.width details.height] ∧
    issuedBetween s s' =
      [Event.map BufferId.hitsPerMeshBuffer] ++
        (if s.mustResize details then resizeCalls k details.width details.height else []) ++
        stageCalls k details.width details.height ++ [Event.map BufferId.hitsPerMeshBuffer] := by
  have h := renderNextIteration_ok k rt _ _ _ _ _ s s' () hr
  obtain ⟨-, -, -, -, ht, -⟩ := h
  have hb := issuedBetween_of_trace s s' _ (by rw [ht, List.append_assoc])
  rw [hb]
  constructor
  · by_cases hc : s.mustResize details <;>
      simp [iterationCalls, hc, resizeCalls, stageCalls, Event.isStage]
  · simp [iterationCalls]

/-- Witness of C7: an iteration at 20 x 30 on the sample renderer (which is 10 x 10). -/
theorem renderNextIteration_stages_witness :
    (PMOptixRenderer.renderNextIteration (sourceConstants 4) quietRuntime 0 0 1 true
      { width := 20, height := 30, camera := { id := 0 }, ppmAlpha := 1 }
      (sceneBoundRenderer (sourceConstants 4))).1 = Except.ok () ∧
    (issuedBetween (sceneBoundRenderer (sourceConstants 4))
      (PMOptixRenderer.renderNextIteration (sourceConstants 4) quietRuntime 0 0 1 true
        { width := 20, height := 30, camera := { id := 0 }, ppmAlpha := 1 }
        (sceneBoundRenderer (sourceConstants 4))).2).filter Event.isStage =
      [Event.launch OptixEntryPoint.PPM_PHOTON_PASS 1024 1024,
       Event.createUniformGridPhotonMap,
       Event.launch OptixEntryPoint.PPM_INDIRECT_RADIANCE_ESTIMATION_PASS 0 0,
       Event.launch OptixEntryPoint.PPM_RAYTRACE_PASS 20 30,
       Event.launch OptixEntryPoint.PPM_INDIRECT_RADIANCE_ESTIMATION_PASS 20 30,
       Event.launch OptixEntryPoint.PPM_DIRECT_RADIANCE_ESTIMATION_PASS 20 30,
       Event.launch OptixEntryPoint.PPM_OUTPUT_PASS 20 30] :=
  ⟨rfl, (renderNextIteration_stages (sourceConstants 4) quietRuntime 0 0 1 true
    { width := 20, height := 30, camera := { id := 0 }, ppmAlpha := 1 }
    (sceneBoundRenderer (sourceConstants 4)) _ (Exec.eq_of_fst _ _ rfl)).1⟩

/-- C8: in a call of `renderNextIteration` that has entered its `try` block (the renderer
is initialized, the hit counters are assigned and could be mapped), let `ev` be the first
call of the block on which the runtime faults, with message `what`: the calls `pre` before
it did not fault.  Then the call throws the `RenderFault` exception whose message is
`"An OptiX error occurred: "` followed by `what`, and what it has issued ends with `ev`:
none of the calls `rest` that come after `ev` in the pipeline, stages included, is issued. -/
theorem renderNextIteration_fault (k : Constants) (rt : Runtime)
    (iterationNumber localIterationNumber : Nat) (PPMRadius : ℚ) (createOutput : Bool)
    (details : RenderServerRenderRequestDetails) (s : PMOptixRenderer) (n : Nat)
    (hits : List Nat) (pre : List Event) (ev : Event) (rest : List Event) (what : String)
    (hi : s.m_initialized = true) (hn : s.m_context.sceneNMeshes = some n)
    (hh : s.m_context.hitsPerMeshBuffer = some hits)
    (hm : rt.fault s.m_context.trace (Event.map BufferId.hitsPerMeshBuffer) = none)
    (hcalls : iterationCalls k s details = pre ++ ev :: rest)
    (hpre : (rt.run (s.m_context.trace ++ [Event.map BufferId.hitsPerMeshBuffer]) pre).2 = none)
    (hev : rt.fault (s.m_context.trace ++ [Event.map BufferId.hitsPerMeshBuffer] ++ pre) ev =
      some what) :
    (PMOptixRenderer.renderNextIteration k rt iterationNumber localIterationNumber PPMRadius
      createOutput details s).1 =
        Except.error (Error.std ("An OptiX error occurred: " ++ what)) ∧
    issuedBetween s
      (PMOptixRenderer.renderNextIteration k rt iterationNumber localIterationNumber PPMRadius
        createOutput details s).2 = [Event.map BufferId.hitsPerMeshBuffer] ++ pre ++ [ev] := by
  have h := renderNextIteration_run k rt iterationNumber localIterationNumber PPMRadius
    createOutput details s n hits hi hn hh hm
  have hrun := Runtime.run_first_fault rt pre ev rest _ what hpre hev
  rw [hcalls, hrun] at h
  obtain ⟨ht, ho⟩ := h
  refine ⟨by rw [ho]; rfl, ?_⟩
  apply issuedBetween_of_trace
  rw [ht]
  simp

/-- Witness of C8: on a runtime whose ray trace launch faults, an iteration at 10 x 10
throws after the photon pass, the photon-map build and the empty launch. -/
theorem renderNextIteration_fault_witness :
    (PMOptixRenderer.renderNextIteration (sourceConstants 4)
      (faultyRuntime Event.isRaytraceLaunch "launch failed") 0 0 1 true (sampleRequest 1)
      (rendererAfterInitScene (sourceConstants 4)
        (faultyRuntime Event.isRaytraceLaunch "launch failed"))).1 =
        Except.error (Error.std ("An OptiX error occurred: " ++ "launch failed")) ∧
    issuedBetween
      (rendererAfterInitScene (sourceConstants 4)
        (faultyRuntime Event.isRaytraceLaunch "launch failed"))
      (PMOptixRenderer.renderNextIteration (sourceConstants 4)
        (faultyRuntime Event.isRaytraceLaunch "launch failed") 0 0 1 true (sampleRequest 1)
        (rendererAfterInitScene (sourceConstants 4)
          (faultyRuntime Event.isRaytraceLaunch "launch failed"))).2 =
      [Event.map BufferId.hitsPerMeshBuffer] ++
        [Event.launch OptixEntryPoint.PPM_PHOTON_PASS 1024 1024,
         Event.createUniformGridPhotonMap,
         Event.launch OptixEntryPoint.PPM_INDIRECT_RADIANCE_ESTIMATION_PASS 0 0] ++
        [Event.launch OptixEntryPoint.PPM_RAYTRACE_PASS 10 10] :=
  renderNextIteration_fault (sourceConstants 4)
    (faultyRuntime Event.isRaytraceLaunch "launch failed") 0 0 1 true (sampleRequest 1)
    (rendererAfterInitScene (sourceConstants 4)
      (faultyRuntime Event.isRaytraceLaunch "launch failed")) 1 [0]
    [Event.launch OptixEntryPoint.PPM_PHOTON_PASS 1024 1024,
     Event.createUniformGridPhotonMap,
     Event.launch OptixEntryPoint.PPM_INDIRECT_RADIANCE_ESTIMATION_PASS 0 0]
    (Event.launch OptixEntryPoint.PPM_RAYTRACE_PASS 10 10)
    [Event.launch OptixEntryPoint.PPM_INDIRECT_RADIANCE_ESTIMATION_PASS 10 10,
     Event.launch OptixEntryPoint.PPM_DIRECT_RADIANCE_ESTIMATION_PASS 10 10,
     Event.launch OptixEntryPoint.PPM_OUTPUT_PASS 10 10,
     Event.map BufferId.hitsPerMeshBuffer]
    "launch failed" rfl rfl rfl rfl rfl rfl rfl

/-! ## Resolution -/

theorem unresized_refl (s : PMOptixRenderer) : Unresized s s := by
  simp [Unresized]

theorem unresized_trans {s s1 s2 : PMOptixRenderer} (h1 : Unresized s s1) (h2 : Unresized s1 s2) :
    Unresized s s2 := by
  unfold Unresized at *
  obtain ⟨a1, a2, a3, a4, a5, a6, a7, a8, a9⟩ := h1
  obtain ⟨b1, b2, b3, b4, b5, b6, b7, b8, b9⟩ := h2
  exact ⟨b1.trans a1, b2.trans a2, b3.trans a3, b4.trans a4, b5.trans a5, b6.trans a6,
    b7.trans a7, b8.trans a8, b9.trans a9⟩

section keeps
variable {α β : Type}

theorem keepsResolution_pure (a : α) : Exec.KeepsResolution (pure a : Exec α) :=
  ⟨fun s => unresized_refl s⟩

theorem keepsResolution_throw (e : Error) : Exec.KeepsResolution (Exec.throw e : Exec α) :=
  ⟨fun s => unresized_refl s⟩

theorem keepsResolution_get : Exec.KeepsResolution Exec.get :=
  ⟨fun s => unresized_refl s⟩

theorem keepsResolution_issue (rt : Runtime) (ev : Event) :
    Exec.KeepsResolution (Exec.issue rt ev) := by
  refine ⟨fun s => ?_⟩
  unfold Exec.issue
  cases rt.fault s.m_context.trace ev <;> simp [Unresized, PMOptixRenderer.record]

theorem keepsResolution_modify (f : PMOptixRenderer → PMOptixRenderer)
    (h : ∀ s, Unresized s (f s)) : Exec.KeepsResolution (Exec.modify f) :=
  ⟨fun s => h s⟩

theorem keepsResolution_modifyContext (f : Context → Context)
    (h : ∀ c, (f c).randomStatesGeneration = c.randomStatesGeneration) :
    Exec.KeepsResolution (Exec.modifyContext f) := by
  refine ⟨fun s => ?_⟩
  simp [Exec.modifyContext, Exec.modify, Unresized, h]

theorem keepsResolution_bind {x : Exec α} {f : α → Exec β} (hx : Exec.KeepsResolution x)
    (hf : ∀ a, Exec.KeepsResolution (f a)) : Exec.KeepsResolution (Exec.bind x f) := by
  refine ⟨fun s => ?_⟩
  have h1 := hx.keeps s
  unfold Exec.bind
  rcases hxs : x s with ⟨out, s1⟩
  rw [hxs] at h1
  cases out with
  | error e => exact h1
  | ok a => exact unresized_trans h1 ((hf a).keeps s1)

theorem keepsResolution_ite (c : Prop) [Decidable c] {x y : Exec α}
    (hx : Exec.KeepsResolution x) (hy : Exec.KeepsResolution y) :
    Exec.KeepsResolution (if c then x else y) := by
  split
  · exact hx
  · exact hy

theorem keepsResolution_tryCatchOptix {body : Exec Unit} (wrap : String → String)
    (hb : Exec.KeepsResolution body) : Exec.KeepsResolution (Exec.tryCatchOptix body wrap) := by
  refine ⟨fun s => ?_⟩
  have h := hb.keeps s
  unfold Exec.tryCatchOptix
  rcases hbs : body s with ⟨out, s1⟩
  rw [hbs] at h
  rcases out with e | u
  · cases e <;> exact h
  · exact h

end keeps

theorem initDeviceLoop_keepsResolution (rt : Runtime) (device : ComputeDevice)
    (indices : List Nat) (ordinal : Int) :
    Exec.KeepsResolution (initDeviceLoop rt device indices ordinal) := by
  induction indices generalizing ordinal with
  | nil => exact keepsResolution_pure _
  | cons index rest ih =>
    simp only [initDeviceLoop, Exec.bind_eq]
    refine keepsResolution_bind (keepsResolution_issue _ _) (fun _ => ?_)
    exact keepsResolution_ite _ (ih _) (ih _)

theorem initDevice_keepsResolution (rt : Runtime) (device : ComputeDevice) :
    Exec.KeepsResolution (PMOptixRenderer.initDevice rt device) := by
  simp only [PMOptixRenderer.initDevice, Exec.bind_eq]
  refine keepsResolution_bind (initDeviceLoop_keepsResolution _ _ _ _) (fun ordinal => ?_)
  refine keepsResolution_bind
    (keepsResolution_modify _ (fun s => by simp [Unresized])) (fun _ => ?_)
  refine keepsResolution_ite _ ?_ (keepsResolution_throw _)
  exact keepsResolution_bind (keepsResolution_issue _ _)
    (fun _ => keepsResolution_modifyContext _ (fun c => rfl))

theorem initScene_keepsResolution (rt : Runtime) (scene : IScene) :
    Exec.KeepsResolution (PMOptixRenderer.initScene rt scene) := by
  simp only [PMOptixRenderer.initScene, PMOptixRenderer.compile, Exec.bind_eq]
  repeat' first
    | exact keepsResolution_issue _ _
    | exact keepsResolution_throw _
    | exact keepsResolution_pure _
    | exact keepsResolution_get
    | exact keepsResolution_modifyContext _ (fun c => rfl)
    | exact keepsResolution_modify _ (fun s => by simp [Unresized])
    | apply keepsResolution_bind
    | apply keepsResolution_ite
    | apply keepsResolution_tryCatchOptix
    | (intro a; try dsimp only)

theorem Exec.ok_bind {α β : Type} (x : Exec α) (f : α → Exec β) (s s' : PMOptixRenderer) (b : β) :
    Exec.bind x f s = (Except.ok b, s') ↔
      ∃ a s1, x s = (Except.ok a, s1) ∧ f a s1 = (Except.ok b, s') := by
  unfold Exec.bind
  rcases x s with ⟨out, s1⟩
  cases out with
  | error e => simp
  | ok a =>
    constructor
    · intro h
      exact ⟨a, s1, rfl, h⟩
    · rintro ⟨a1, s2, h1, h2⟩
      cases h1
      exact h2

theorem initialize_ok (k : Constants) (rt : Runtime) (device : ComputeDevice)
    (s s' : PMOptixRenderer) (u : Unit)
    (hr : PMOptixRenderer.initialize k rt device s = (Except.ok u, s')) :
    s'.m_initialized = true ∧ s'.m_width = s.m_width ∧ s'.m_height = s.m_height ∧
    s'.m_outputBuffer = some [s.m_width, s.m_height] ∧
    s'.m_raytracePassOutputBuffer = some [s.m_width, s.m_height] ∧
    s'.m_directRadianceBuffer = some [s.m_width, s.m_height] ∧
    s'.m_indirectRadianceBuffer = some [s.m_width, s.m_height] ∧
    s'.m_randomStatesBuffer = some [k.PHOTON_LAUNCH_WIDTH, k.PHOTON_LAUNCH_HEIGHT] := by
  simp only [ PMOptixRenderer.initialize, Exec.bind_eq, Exec.bind_assoc, Exec.get_bind_apply,
    Exec.ite_apply, Exec.throw_bind, Exec.throw_apply, Exec.pure_bind] at hr
  cases hi : s.m_initialized
  · simp only [hi, Bool.false_eq_true, if_false] at hr
    rw [Exec.ok_bind] at hr
    obtain ⟨a, s1, h1, h2⟩ := hr
    have hk := (initDevice_keepsResolution rt device).keeps s
    rw [h1] at hk
    simp only [Exec.ok_issue_bind, Exec.modify_bind_apply, Exec.modifyContext_bind_apply,
      Exec.modify_apply, PMOptixRenderer.record] at h2
    obtain ⟨-, -, -, -, -, -, -, -, -, -, -, -, -, -, -, -, -, -, -, h2⟩ := h2
    cases h2
    obtain ⟨-, hw, hh, -⟩ := hk
    simp only at hw hh
    simp [hw, hh]
  · simp [hi] at hr

theorem reachable_sizedTo {k : Constants} {rt : Runtime} {s : PMOptixRenderer}
    (hs : Reachable k rt s) : s.sizedTo s.m_width s.m_height := by
  induction hs with
  | afterInitialize device s0 s h =>
    obtain ⟨-, hw, hh, h1, h2, h3, h4, -⟩ := initialize_ok k rt device s0 s () h
    exact ⟨rfl, rfl, by rw [h1, hw, hh], by rw [h2, hw, hh], by rw [h3, hw, hh],
      by rw [h4, hw, hh]⟩
  | afterInitScene scene s s' out _ h ih =>
    have hk := (initScene_keepsResolution rt scene).keeps s
    rw [h] at hk
    obtain ⟨-, hw, hh, h1, h2, h3, h4, -⟩ := hk
    simp only at hw hh h1 h2 h3 h4
    obtain ⟨-, -, i1, i2, i3, i4⟩ := ih
    exact ⟨rfl, rfl, by rw [h1, hw, hh, i1], by rw [h2, hw, hh, i2], by rw [h3, hw, hh, i3],
      by rw [h4, hw, hh, i4]⟩
  | afterRender g l r co d s s' _ h ih =>
    obtain ⟨-, -, hw, hh, -, -, -, -, -, -, hres, hsame, -⟩ :=
      renderNextIteration_ok k rt g l r co d s s' () h
    by_cases hc : s.mustResize d
    · obtain ⟨h1, h2, h3, h4, -⟩ := hres hc
      exact ⟨rfl, rfl, by rw [h1, hw, hh], by rw [h2, hw, hh], by rw [h3, hw, hh],
        by rw [h4, hw, hh]⟩
    · obtain ⟨h1, h2, h3, h4, -⟩ := hsame hc
      obtain ⟨-, -, i1, i2, i3, i4⟩ := ih
      have hc' := hc
      unfold PMOptixRenderer.mustResize at hc'
      simp only [not_or, not_not] at hc'
      obtain ⟨e1, e2⟩ := hc'
      exact ⟨rfl, rfl, by rw [h1, hw, hh, i1, e1, e2], by rw [h2, hw, hh, i2, e1, e2],
        by rw [h3, hw, hh, i3, e1, e2], by rw [h4, hw, hh, i4, e1, e2]⟩

theorem renderNextIteration_sizedTo (k : Constants) (rt : Runtime) (g l : Nat) (r : ℚ)
    (co : Bool) (d : RenderServerRenderRequestDetails) (s s' : PMOptixRenderer)
    (hs : Reachable k rt s)
    (hr : PMOptixRenderer.renderNextIteration k rt g l r co d s = (Except.ok (), s')) :
    s'.sizedTo d.width d.height := by
  have h := reachable_sizedTo (Reachable.afterRender g l r co d s s' hs hr)
  obtain ⟨-, -, hw, hh, -⟩ := renderNextIteration_ok k rt g l r co d s s' () hr
  rw [hw, hh] at h
  exact h

/-- C9: on a renderer that has been initialized and has since only bound scenes and
rendered iterations that returned normally, a call of `renderNextIteration` that returns
normally has called `resizeBuffers` exactly when the requested width or height differs
from `getWidth()`, `getHeight()` (its calls are then the only resizing calls issued, and
there is none otherwise); afterwards `getWidth()` and `getHeight()` are the requested
resolution and the output, hit-point, direct and indirect radiance buffers have the extent
`width x height`.  In particular after a further iteration at another resolution B and one
at the first resolution again, these extents are the ones left by the first call. -/
theorem renderNextIteration_resolution (k : Constants) (rt : Runtime)
    (iterationNumber localIterationNumber : Nat) (PPMRadius : ℚ) (createOutput : Bool)
    (details : RenderServerRenderRequestDetails) (s s' : PMOptixRenderer)
    (hs : Reachable k rt s)
    (hr : PMOptixRenderer.renderNextIteration k rt iterationNumber localIterationNumber PPMRadius
      createOutput details s = (Except.ok (), s')) :
    (issuedBetween s s').filter Event.isResize =
      (if details.width ≠ s.getWidth ∨ details.height ≠ s.getHeight then
        resizeCalls k details.width details.height else []) ∧
    s'.getWidth = details.width ∧ s'.getHeight = details.height ∧
    s'.m_outputBuffer = some [details.width, details.height] ∧
    s'.m_raytracePassOutputBuffer = some [details.width, details.height] ∧
    s'.m_directRadianceBuffer = some [details.width, details.height] ∧
    s'.m_indirectRadianceBuffer = some [details.width, details.height] ∧
    ∀ (g2 l2 : Nat) (r2 : ℚ) (c2 : Bool) (detailsB : RenderServerRenderRequestDetails)
      (s2 : PMOptixRenderer) (g3 l3 : Nat) (r3 : ℚ) (c3 : Bool)
      (detailsA : RenderServerRenderRequestDetails) (s3 : PMOptixRenderer),
      PMOptixRenderer.renderNextIteration k rt g2 l2 r2 c2 detailsB s' = (Except.ok (), s2) →
      PMOptixRenderer.renderNextIteration k rt g3 l3 r3 c3 detailsA s2 = (Except.ok (), s3) →
      detailsA.width = details.width → detailsA.height = details.height →
      s3.getWidth = s'.getWidth ∧ s3.getHeight = s'.getHeight ∧
      s3.m_outputBuffer = s'.m_outputBuffer ∧
      s3.m_raytracePassOutputBuffer = s'.m_raytracePassOutputBuffer ∧
      s3.m_directRadianceBuffer = s'.m_directRadianceBuffer ∧
      s3.m_indirectRadianceBuffer = s'.m_indirectRadianceBuffer := by
  have hsz := renderNextIteration_sizedTo k rt _ _ _ _ _ s s' hs hr
  obtain ⟨-, -, -, -, ht, -⟩ := renderNextIteration_ok k rt _ _ _ _ _ s s' () hr
  have hb := issuedBetween_of_trace s s' _ (by rw [ht, List.append_assoc])
  obtain ⟨a1, a2, a3, a4, a5, a6⟩ := hsz
  refine ⟨?_, a1, a2, a3, a4, a5, a6, ?_⟩
  · rw [hb]
    by_cases hc : s.mustResize details
    · have hc' := hc
      unfold PMOptixRenderer.mustResize at hc'
      simp [iterationCalls, hc, resizeCalls, stageCalls, Event.isResize,
        PMOptixRenderer.getWidth, PMOptixRenderer.getHeight, hc']
    · have hc' := hc
      unfold PMOptixRenderer.mustResize at hc'
      simp [iterationCalls, hc, resizeCalls, stageCalls, Event.isResize,
        PMOptixRenderer.getWidth, PMOptixRenderer.getHeight, hc']
  · intro g2 l2 r2 c2 detailsB s2 g3 l3 r3 c3 detailsA s3 h2 h3 hw hh
    have hs' := Reachable.afterRender _ _ _ _ _ s s' hs hr
    have hs2 := Reachable.afterRender _ _ _ _ _ s' s2 hs' h2
    obtain ⟨b1, b2, b3, b4, b5, b6⟩ := renderNextIteration_sizedTo k rt _ _ _ _ _ s2 s3 hs2 h3
    simp only [hw, hh] at b1 b2 b3 b4 b5 b6
    exact ⟨b1.trans a1.symm, b2.trans a2.symm, b3.trans a3.symm, b4.trans a4.symm,
      b5.trans a5.symm, b6.trans a6.symm⟩

theorem reachable_sceneBoundRenderer (k : Constants) :
    Reachable k quietRuntime (sceneBoundRenderer k) :=
  Reachable.afterInitScene sampleScene (initializedRenderer k) _ _
    (Reachable.afterInitialize { deviceId := 0 } PMOptixRenderer.new _ (Exec.eq_of_fst _ _ rfl))
    rfl

/-- Witness of C9: an iteration at 20 x 30 on the sample renderer (which is 10 x 10). -/
theorem renderNextIteration_resolution_witness :
    (PMOptixRenderer.renderNextIteration (sourceConstants 4) quietRuntime 0 0 1 true
      { width := 20, height := 30, camera := { id := 0 }, ppmAlpha := 1 }
      (sceneBoundRenderer (sourceConstants 4))).1 = Except.ok () ∧
    (PMOptixRenderer.renderNextIteration (sourceConstants 4) quietRuntime 0 0 1 true
      { width := 20, height := 30, camera := { id := 0 }, ppmAlpha := 1 }
      (sceneBoundRenderer (sourceConstants 4))).2.m_outputBuffer = some [20, 30] :=
  ⟨rfl, (renderNextIteration_resolution (sourceConstants 4) quietRuntime 0 0 1 true
    { width := 20, height := 30, camera := { id := 0 }, ppmAlpha := 1 }
    (sceneBoundRenderer (sourceConstants 4)) _ (reachable_sceneBoundRenderer _)
    (Exec.eq_of_fst _ _ rfl)).2.2.2.1⟩

/-- C11 (defect of the code): after `initialize` the random-state buffer is
`PHOTON_LAUNCH_WIDTH x PHOTON_LAUNCH_HEIGHT` (1024 x 1024), which covers the photon launch
and the initial 10 x 10 output.  After a render request at 1920 x 1080, which resizes, the
output is 1920 x 1080 but the random-state buffer is
`max(PHOTON_LAUNCH_WIDTH, 1280) x max(PHOTON_LAUNCH_HEIGHT, 768)`, that is 1280 x 1024: it
still covers the photon launch, and is smaller than the output in both dimensions, so the
pixels from column 1280 or row 1024 on have no random state. -/
theorem randomStatesBuffer_smaller_than_output :
    (initializedRenderer (sourceConstants 4)).m_randomStatesBuffer = some [1024, 1024] ∧
    (initializedRenderer (sourceConstants 4)).getWidth = 10 ∧
    (initializedRenderer (sourceConstants 4)).getHeight = 10 ∧
    (PMOptixRenderer.renderNextIteration (sourceConstants 4) quietRuntime 0 0 1 true
      fullHDRequest (sceneBoundRenderer (sourceConstants 4))).1 = Except.ok () ∧
    (PMOptixRenderer.renderNextIteration (sourceConstants 4) quietRuntime 0 0 1 true
      fullHDRequest (sceneBoundRenderer (sourceConstants 4))).2.getWidth = 1920 ∧
    (PMOptixRenderer.renderNextIteration (sourceConstants 4) quietRuntime 0 0 1 true
      fullHDRequest (sceneBoundRenderer (sourceConstants 4))).2.getHeight = 1080 ∧
    (PMOptixRenderer.renderNextIteration (sourceConstants 4) quietRuntime 0 0 1 true
      fullHDRequest (sceneBoundRenderer (sourceConstants 4))).2.m_outputBuffer =
        some [1920, 1080] ∧
    (PMOptixRenderer.renderNextIteration (sourceConstants 4) quietRuntime 0 0 1 true
      fullHDRequest (sceneBoundRenderer (sourceConstants 4))).2.m_randomStatesBuffer =
        some [1280, 1024] ∧
    (sourceConstants 4).PHOTON_LAUNCH_WIDTH ≤ 1280 ∧
    (sourceConstants 4).PHOTON_LAUNCH_HEIGHT ≤ 1024 ∧
    1280 < 1920 ∧ 1024 < 1080 :=
  ⟨rfl, rfl, rfl, rfl, rfl, rfl, rfl, rfl, by decide, by decide, by decide, by decide⟩

/-! ## Device selection -/

end OppositeRenderer
